import Mathlib

/-!
Verification of the ZoKrates optimization core: the IR `Folder` framework
(src/zokrates_core/src/ir/folder.rs), the typed-AST `ResultFolder` framework
(src/zokrates_core/src/typed_absy/result_folder.rs) and the five-pass
optimization pipeline entry point (src/zokrates_core/src/optimizer/mod.rs).

Modelling conventions:
* Rust trait objects with `&mut self` methods are modelled as records of
  state-threading functions `S → X → S × X` (infallible IR framework) or
  `S → X → Except Failure (S × X)` (fallible ResultFolder framework).
  A record field holds the final, possibly overridden, operation; the
  source's free `fold_*` functions (the overridable defaults) are modelled
  as functions taking the record and dispatching into its fields, exactly
  as the Rust defaults call back into the trait ("open recursion").
* `Vec<T>` is `List T`, `BTreeMap` is an association list in key order,
  opaque identifier types (wire names, solver ids, function keys, module
  ids) are `Nat`, and the field type parameter `T: Field` stays a type
  parameter (no field arithmetic occurs in the folded code).
* Rust `Result<_, CompileError>` composed with `?` is `Except` and monadic
  bind; the `unreachable!()` macro (a panic that unwinds through every
  frame, none of which catches it) is the distinguished `Failure.Fatal`
  value, kept apart from `Failure.CompileError`.
-/

namespace ZoKrates

/-- State-threading list map: models `iter().map(|x| f.fold_x(x)).collect()`
where `f: &mut F` is threaded through the calls in order. -/
def mapState {S α β : Type} (f : S → α → S × β) : S → List α → S × List β
  | s, [] => (s, [])
  | s, a :: l =>
    let (s1, b) := f s a
    let (s2, bs) := mapState f s1 l
    (s2, b :: bs)

/-- State-threading flat map: models
`iter().flat_map(|x| f.fold_x(x)).collect()` for a many-out-of-one fold. -/
def flatMapState {S α β : Type} (f : S → α → S × List β) : S → List α → S × List β
  | s, [] => (s, [])
  | s, a :: l =>
    let (s1, bs) := f s a
    let (s2, bs') := flatMapState f s1 l
    (s2, bs ++ bs')

/-! ## The flattened constraint IR and its `Folder` framework

Source: src/zokrates_core/src/ir/folder.rs. The IR data types themselves
(`Prog`, `Statement`, `LinComb`, `QuadComb`, `Directive`, `FlatVariable`,
`FlatParameter`, `ProgIterator`) are defined outside the provided sources;
their shapes below are modelled from spec §3 and from the constructors and
fields the provided folding and optimizer code uses. -/

namespace Ir

/-- Modelled from the spec: a `FlatVariable` is an opaque wire identity with
identity-based equality. -/
abbrev FlatVariable := Nat

/-- Modelled from the spec: a parameter is a variable plus a private/public
visibility flag; `fold_argument` rebuilds exactly these two fields. -/
structure FlatParameter where
  id : FlatVariable
  «private» : Bool
deriving DecidableEq, Repr

/-- Modelled from the spec: an ordered collection of (variable, coefficient)
pairs. In Rust this is the tuple struct `LinComb(Vec<(FlatVariable, T)>)`,
accessed as `e.0`; here the single field is named `terms`. -/
structure LinComb (T : Type) where
  terms : List (FlatVariable × T)
deriving DecidableEq, Repr

/-- Modelled from the spec: a pair of linear combinations denoting their
product. -/
structure QuadComb (T : Type) where
  left : LinComb T
  right : LinComb T
deriving DecidableEq, Repr

/-- Modelled from the spec: a directive computes `outputs` from `inputs` by
an out-of-circuit solver; `fold_directive` rebuilds `inputs` and `outputs`
and keeps the remaining fields (`..ds`), here the opaque `solver`. -/
structure Directive (T : Type) where
  inputs : List (QuadComb T)
  outputs : List FlatVariable
  solver : Nat
deriving DecidableEq, Repr

/-- Modelled from the spec: a statement is either a constraint
`quad == lin` with an optional diagnostic message, or a directive. -/
inductive Statement (T : Type) where
  | Constraint (quad : QuadComb T) (lin : LinComb T) (message : Option Nat)
  | Directive (d : Directive T)
deriving DecidableEq, Repr

/-- Modelled from the spec: the flattened program folded by `fold_module`
(arguments, ordered statements, return variables). -/
structure Prog (T : Type) where
  arguments : List FlatParameter
  statements : List (Statement T)
  returns : List FlatVariable
deriving DecidableEq, Repr

/-- Modelled from the spec: the streaming program form consumed by
`optimize` — arguments, a statement stream, and a return count
(`return_count`, not a list of return variables). -/
structure ProgIterator (T : Type) where
  arguments : List FlatParameter
  statements : List (Statement T)
  return_count : Nat
deriving DecidableEq, Repr

/-- An implementation of the Rust trait `Folder<T>`: one record field per
overridable operation, holding the final (post-override) operation. The
mutable receiver `&mut self` is the threaded state `S`. -/
structure Folder (T S : Type) where
  fold_module : S → Prog T → S × Prog T
  fold_argument : S → FlatParameter → S × FlatParameter
  fold_variable : S → FlatVariable → S × FlatVariable
  fold_statement : S → Statement T → S × List (Statement T)
  fold_linear_combination : S → LinComb T → S × LinComb T
  fold_quadratic_combination : S → QuadComb T → S × QuadComb T
  fold_directive : S → Directive T → S × Directive T

/-- ir/folder.rs `fold_module` (the default body of the trait method):
folds arguments, flat-maps statements, folds return variables, all through
the folder's own overridable operations. -/
def fold_module {T S : Type} (f : Folder T S) (s : S) (p : Prog T) : S × Prog T :=
  let (s1, arguments) := mapState f.fold_argument s p.arguments
  let (s2, statements) := flatMapState f.fold_statement s1 p.statements
  let (s3, returns) := mapState f.fold_variable s2 p.returns
  (s3, { arguments := arguments, statements := statements, returns := returns })

/-- ir/folder.rs `fold_statement` default: one output statement per input,
folding the combinations of a constraint (keeping its message) and the
directive of a directive statement. -/
def fold_statement {T S : Type} (f : Folder T S) (s : S) :
    Statement T → S × List (Statement T)
  | .Constraint quad lin message =>
    let (s1, quad') := f.fold_quadratic_combination s quad
    let (s2, lin') := f.fold_linear_combination s1 lin
    (s2, [.Constraint quad' lin' message])
  | .Directive dir =>
    let (s1, dir') := f.fold_directive s dir
    (s1, [.Directive dir'])

/-- ir/folder.rs `fold_linear_combination` default: each (variable,
coefficient) term is mapped to (fold_variable(variable), coefficient). -/
def fold_linear_combination {T S : Type} (f : Folder T S) (s : S) (e : LinComb T) :
    S × LinComb T :=
  let (s1, terms) := mapState
    (fun s' (vc : FlatVariable × T) =>
      let (s'', v') := f.fold_variable s' vc.1
      (s'', (v', vc.2))) s e.terms
  (s1, ⟨terms⟩)

/-- ir/folder.rs `fold_quadratic_combination` default: fold both sides. -/
def fold_quadratic_combination {T S : Type} (f : Folder T S) (s : S) (e : QuadComb T) :
    S × QuadComb T :=
  let (s1, left) := f.fold_linear_combination s e.left
  let (s2, right) := f.fold_linear_combination s1 e.right
  (s2, { left := left, right := right })

/-- ir/folder.rs `fold_directive` default: fold the input combinations and
the output variables, keep the rest of the directive (`..ds`). -/
def fold_directive {T S : Type} (f : Folder T S) (s : S) (ds : Directive T) :
    S × Directive T :=
  let (s1, inputs) := mapState f.fold_quadratic_combination s ds.inputs
  let (s2, outputs) := mapState f.fold_variable s1 ds.outputs
  (s2, { ds with inputs := inputs, outputs := outputs })

/-- ir/folder.rs `fold_argument` default: rebuild the parameter with the
folded id and the unchanged `private` flag. -/
def fold_argument {T S : Type} (f : Folder T S) (s : S) (a : FlatParameter) :
    S × FlatParameter :=
  let (s1, id) := f.fold_variable s a.id
  (s1, { id := id, «private» := a.«private» })

/-- ir/folder.rs `fold_variable` default: the identity. -/
def fold_variable {T S : Type} (_f : Folder T S) (s : S) (v : FlatVariable) :
    S × FlatVariable :=
  (s, v)

/-- The trait implementation generated by overriding only `fold_variable`
with `fv` and inheriting every default. Rust resolves each default method
against the final implementation, so every `f.fold_variable` call inside a
default dispatches to `fv`; the dispatch graph of ir/folder.rs is acyclic
(variable ← linear ← quadratic ← directive/statement/argument ← module), so
the resolved implementation can be built bottom-up. -/
def implWithVariable {T S : Type} (fv : S → FlatVariable → S × FlatVariable) :
    Folder T S :=
  let flc := fun s (e : LinComb T) =>
    let (s1, terms) := mapState
      (fun s' (vc : FlatVariable × T) =>
        let (s'', v') := fv s' vc.1
        (s'', (v', vc.2))) s e.terms
    (s1, (⟨terms⟩ : LinComb T))
  let fqc := fun s (e : QuadComb T) =>
    let (s1, left) := flc s e.left
    let (s2, right) := flc s1 e.right
    (s2, ({ left := left, right := right } : QuadComb T))
  let fdir := fun s (ds : Directive T) =>
    let (s1, inputs) := mapState fqc s ds.inputs
    let (s2, outputs) := mapState fv s1 ds.outputs
    (s2, { ds with inputs := inputs, outputs := outputs })
  let farg := fun s (a : FlatParameter) =>
    let (s1, id) := fv s a.id
    (s1, ({ id := id, «private» := a.«private» } : FlatParameter))
  let fstmt := fun s (st : Statement T) =>
    match st with
    | .Constraint quad lin message =>
      let (s1, quad') := fqc s quad
      let (s2, lin') := flc s1 lin
      (s2, [Statement.Constraint quad' lin' message])
    | .Directive dir =>
      let (s1, dir') := fdir s dir
      (s1, [Statement.Directive dir'])
  let fmod := fun s (p : Prog T) =>
    let (s1, arguments) := mapState farg s p.arguments
    let (s2, statements) := flatMapState fstmt s1 p.statements
    let (s3, returns) := mapState fv s2 p.returns
    (s3, ({ arguments := arguments, statements := statements, returns := returns } : Prog T))
  ⟨fmod, farg, fv, fstmt, flc, fqc, fdir⟩

/-- The no-override implementation of `Folder<T>`: `implWithVariable` at the
default (identity) `fold_variable`. -/
def defaultFolder {T S : Type} : Folder T S :=
  implWithVariable (fun s v => (s, v))

/-- A stateless substitution pass: overrides only `fold_variable`, replacing
each variable by `σ` of it. -/
def substFolder {T : Type} (σ : FlatVariable → FlatVariable) : Folder T Unit :=
  implWithVariable (fun s v => (s, σ v))

end Ir

namespace Optimizer

/-- optimizer/mod.rs `optimize`: the five passes
(`RedefinitionOptimizer`, `TautologyOptimizer`, `Canonicalizer`,
`DirectiveOptimizer`, `DuplicateOptimizer`) are constructed inside the
source function; their implementations live outside the provided sources,
so they appear here as five arbitrary `Folder` implementations with their
initial states. The source builds the output `ProgIterator` by
* mapping each argument through `fold_argument` of the redefinition,
  tautology, directive and duplicate optimizers (the canonicalizer is not
  applied to arguments),
* flat-mapping each statement through `fold_statement` of all five passes
  in pipeline order, and
* copying `return_count` unchanged.
The Rust iterator chains are lazy per element; because the five passes keep
disjoint state, the eager stage-by-stage schedule used here produces the
same outputs and the same per-pass state threading (arguments are collected
before the statement stream is consumed, so each pass's argument folds
happen before its statement folds, as modelled). -/
def optimize {T S1 S2 S3 S4 S5 : Type}
    (redefinition_optimizer : Ir.Folder T S1)
    (tautologies_optimizer : Ir.Folder T S2)
    (canonicalizer : Ir.Folder T S3)
    (directive_optimizer : Ir.Folder T S4)
    (duplicate_optimizer : Ir.Folder T S5)
    (s1 : S1) (s2 : S2) (s3 : S3) (s4 : S4) (s5 : S5)
    (p : Ir.ProgIterator T) : Ir.ProgIterator T :=
  let a1 := mapState redefinition_optimizer.fold_argument s1 p.arguments
  let a2 := mapState tautologies_optimizer.fold_argument s2 a1.2
  let a3 := mapState directive_optimizer.fold_argument s4 a2.2
  let a4 := mapState duplicate_optimizer.fold_argument s5 a3.2
  let st1 := flatMapState redefinition_optimizer.fold_statement a1.1 p.statements
  let st2 := flatMapState tautologies_optimizer.fold_statement a2.1 st1.2
  let st3 := flatMapState canonicalizer.fold_statement s3 st2.2
  let st4 := flatMapState directive_optimizer.fold_statement a3.1 st3.2
  let st5 := flatMapState duplicate_optimizer.fold_statement a4.1 st4.2
  { arguments := a4.2, statements := st5.2, return_count := p.return_count }

/-- Modelled from the spec: the claim's reading of the argument boundary —
"the optimize operation passes each program argument through the
fold_argument override of every one of the five passes", i.e. the argument
list mapped through `fold_argument` of all five passes in pipeline order
(redefinition, tautology, canonicalization, directive, duplicate). Used
only as the comparison point for the refutation of that claim. -/
def optimizeArgumentsPerSpec {T S1 S2 S3 S4 S5 : Type}
    (redefinition_optimizer : Ir.Folder T S1)
    (tautologies_optimizer : Ir.Folder T S2)
    (canonicalizer : Ir.Folder T S3)
    (directive_optimizer : Ir.Folder T S4)
    (duplicate_optimizer : Ir.Folder T S5)
    (s1 : S1) (s2 : S2) (s3 : S3) (s4 : S4) (s5 : S5)
    (args : List Ir.FlatParameter) : List Ir.FlatParameter :=
  let a1 := mapState redefinition_optimizer.fold_argument s1 args
  let a2 := mapState tautologies_optimizer.fold_argument s2 a1.2
  let a3 := mapState canonicalizer.fold_argument s3 a2.2
  let a4 := mapState directive_optimizer.fold_argument s4 a3.2
  let a5 := mapState duplicate_optimizer.fold_argument s5 a4.2
  a5.2

/-- The four-stage argument path `optimize` actually applies. -/
def optimizeArguments {T S1 S2 S4 S5 : Type}
    (redefinition_optimizer : Ir.Folder T S1)
    (tautologies_optimizer : Ir.Folder T S2)
    (directive_optimizer : Ir.Folder T S4)
    (duplicate_optimizer : Ir.Folder T S5)
    (s1 : S1) (s2 : S2) (s4 : S4) (s5 : S5)
    (args : List Ir.FlatParameter) : List Ir.FlatParameter :=
  let a1 := mapState redefinition_optimizer.fold_argument s1 args
  let a2 := mapState tautologies_optimizer.fold_argument s2 a1.2
  let a3 := mapState directive_optimizer.fold_argument s4 a2.2
  let a4 := mapState duplicate_optimizer.fold_argument s5 a3.2
  a4.2

end Optimizer

/-! ## The typed AST and its `ResultFolder` framework

Source: src/zokrates_core/src/typed_absy/result_folder.rs. The typed-AST
data types are defined outside the provided sources; their constructor sets
and payloads below are modelled from spec §3 and, exhaustively, from the
match arms and struct literals of the provided folding code. Opaque
payloads the folds never inspect (identifiers, member ids, function keys,
module ids, bitwidths, declaration types, struct-type metadata kept by
`..t`, function signatures kept by `..fun`) are modelled as `Nat`. -/

namespace TypedAbsy

/-- An ordinary compile error (`CompileError`), opaque to the folding code:
it is only ever created by overrides and propagated. -/
structure CompileError where
  code : Nat
deriving DecidableEq, Repr

/-- The two ways a fold can fail: an ordinary compile error returned in the
Rust `Result`, or the fatal broken-invariant panic (`unreachable!()`)
which unwinds through every fold frame (none of which catches it). -/
inductive Failure where
  | CompileError (e : CompileError)
  | Fatal
deriving DecidableEq, Repr

/-- The result of a fallible fold step. -/
abbrev FRes (α : Type) := Except Failure α

/-- Modelled from the spec: an identifier (`Identifier<'ast>`), opaque. -/
abbrev Identifier := Nat

/-- Modelled from the spec: an unsigned-integer bitwidth. -/
abbrev UBitwidth := Nat

/-- Modelled from the spec: a struct member id (`MemberId`), opaque. -/
abbrev MemberId := Nat

/-- Modelled from the spec: a declaration-level type (`DeclarationType`),
opaque here because the default `fold_declaration_type` returns it
unchanged without looking inside. -/
abbrev DeclarationType := Nat

/-- Modelled from the spec: an untyped integer literal expression
(`IntExpression`), present only transiently before literal-type
resolution; the framework never folds into it. -/
inductive IntExpression (T : Type) where
  | Value (n : Nat)
deriving DecidableEq, Repr

set_option maxHeartbeats 3200000 in
mutual

/-- Modelled from the spec: a runtime type (`Type`/`GType`); array types
carry their element type and a `UExpression` size, struct types carry a
member schema, the rest are scalar. -/
inductive GType (T : Type) where
  | FieldElement
  | Boolean
  | Array (array_type : ArrayType T)
  | Struct (struct_type : StructType T)
  | Uint (bitwidth : UBitwidth)
  | Int

/-- Modelled from the spec: an array type: element type and size, the size
being itself a uint expression (parametric array lengths). -/
inductive ArrayType (T : Type) where
  | mk (ty : GType T) (size : UExpression T)

/-- Modelled from the spec: a struct type: an opaque canonical identity
(the fields `fold_struct_type` keeps through `..t`) and the member
schema. -/
inductive StructType (T : Type) where
  | mk (canonical : Nat) (members : List (StructMember T))

/-- Modelled from the spec: a named struct member and its type. -/
inductive StructMember (T : Type) where
  | mk (id : MemberId) (ty : GType T)

/-- Modelled from the spec: a uint expression: a bitwidth and an inner
node (`fold_uint_expression` rebuilds `inner` and keeps the rest via
`..e`). -/
inductive UExpression (T : Type) where
  | mk (bitwidth : UBitwidth) (inner : UExpressionInner T)

/-- Constructor set taken from the match in `fold_uint_expression_inner`. -/
inductive UExpressionInner (T : Type) where
  | Value (v : Nat)
  | Identifier (id : Identifier)
  | Add (l : UExpression T) (r : UExpression T)
  | Sub (l : UExpression T) (r : UExpression T)
  | FloorSub (l : UExpression T) (r : UExpression T)
  | Mult (l : UExpression T) (r : UExpression T)
  | Div (l : UExpression T) (r : UExpression T)
  | Rem (l : UExpression T) (r : UExpression T)
  | Xor (l : UExpression T) (r : UExpression T)
  | And (l : UExpression T) (r : UExpression T)
  | Or (l : UExpression T) (r : UExpression T)
  | LeftShift (e : UExpression T) (b : FieldElementExpression T)
  | RightShift (e : UExpression T) (b : FieldElementExpression T)
  | Not (e : UExpression T)
  | FunctionCall (key : Nat) (generics : List (Option (UExpression T)))
      (exps : List (TypedExpression T))
  | Select (array : ArrayExpression T) (index : UExpression T)
  | IfElse (cond : BooleanExpression T) (cons : UExpression T) (alt : UExpression T)
  | Member (s : StructExpression T) (id : MemberId)

/-- Constructor set taken from the match in `fold_field_expression`. -/
inductive FieldElementExpression (T : Type) where
  | Number (n : T)
  | Identifier (id : Identifier)
  | Add (e1 : FieldElementExpression T) (e2 : FieldElementExpression T)
  | Sub (e1 : FieldElementExpression T) (e2 : FieldElementExpression T)
  | Mult (e1 : FieldElementExpression T) (e2 : FieldElementExpression T)
  | Div (e1 : FieldElementExpression T) (e2 : FieldElementExpression T)
  | Pow (e1 : FieldElementExpression T) (e2 : UExpression T)
  | IfElse (cond : BooleanExpression T) (cons : FieldElementExpression T)
      (alt : FieldElementExpression T)
  | FunctionCall (key : Nat) (generics : List (Option (UExpression T)))
      (exps : List (TypedExpression T))
  | Member (s : StructExpression T) (id : MemberId)
  | Select (array : ArrayExpression T) (index : UExpression T)

/-- Constructor set taken from the match in `fold_boolean_expression`. -/
inductive BooleanExpression (T : Type) where
  | Value (v : Bool)
  | Identifier (id : Identifier)
  | FieldEq (e1 : FieldElementExpression T) (e2 : FieldElementExpression T)
  | BoolEq (e1 : BooleanExpression T) (e2 : BooleanExpression T)
  | ArrayEq (e1 : ArrayExpression T) (e2 : ArrayExpression T)
  | StructEq (e1 : StructExpression T) (e2 : StructExpression T)
  | UintEq (e1 : UExpression T) (e2 : UExpression T)
  | FieldLt (e1 : FieldElementExpression T) (e2 : FieldElementExpression T)
  | FieldLe (e1 : FieldElementExpression T) (e2 : FieldElementExpression T)
  | FieldGt (e1 : FieldElementExpression T) (e2 : FieldElementExpression T)
  | FieldGe (e1 : FieldElementExpression T) (e2 : FieldElementExpression T)
  | UintLt (e1 : UExpression T) (e2 : UExpression T)
  | UintLe (e1 : UExpression T) (e2 : UExpression T)
  | UintGt (e1 : UExpression T) (e2 : UExpression T)
  | UintGe (e1 : UExpression T) (e2 : UExpression T)
  | Or (e1 : BooleanExpression T) (e2 : BooleanExpression T)
  | And (e1 : BooleanExpression T) (e2 : BooleanExpression T)
  | Not (e : BooleanExpression T)
  | FunctionCall (key : Nat) (generics : List (Option (UExpression T)))
      (exps : List (TypedExpression T))
  | IfElse (cond : BooleanExpression T) (cons : BooleanExpression T)
      (alt : BooleanExpression T)
  | Member (s : StructExpression T) (id : MemberId)
  | Select (array : ArrayExpression T) (index : UExpression T)

/-- An array expression: its array type (boxed `ty` field) and inner node,
both rebuilt by `fold_array_expression`. -/
inductive ArrayExpression (T : Type) where
  | mk (ty : ArrayType T) (inner : ArrayExpressionInner T)

/-- Constructor set taken from the match in `fold_array_expression_inner`. -/
inductive ArrayExpressionInner (T : Type) where
  | Identifier (id : Identifier)
  | Value (exprs : List (TypedExpressionOrSpread T))
  | FunctionCall (key : Nat) (generics : List (Option (UExpression T)))
      (exps : List (TypedExpression T))
  | IfElse (cond : BooleanExpression T) (cons : ArrayExpression T)
      (alt : ArrayExpression T)
  | Member (s : StructExpression T) (id : MemberId)
  | Select (array : ArrayExpression T) (index : UExpression T)
  | Slice (array : ArrayExpression T) (lo : UExpression T) (hi : UExpression T)
  | Repeat (e : TypedExpression T) (count : UExpression T)

/-- A struct expression: its struct type (`ty`, kept by `..e` in
`fold_struct_expression`) and inner node. -/
inductive StructExpression (T : Type) where
  | mk (ty : StructType T) (inner : StructExpressionInner T)

/-- Constructor set taken from the match in `fold_struct_expression_inner`. -/
inductive StructExpressionInner (T : Type) where
  | Identifier (id : Identifier)
  | Value (exprs : List (TypedExpression T))
  | FunctionCall (key : Nat) (generics : List (Option (UExpression T)))
      (exps : List (TypedExpression T))
  | IfElse (cond : BooleanExpression T) (cons : StructExpression T)
      (alt : StructExpression T)
  | Member (s : StructExpression T) (id : MemberId)
  | Select (array : ArrayExpression T) (index : UExpression T)

/-- The tagged union over the six expression kinds, as dispatched by
`fold_expression`. -/
inductive TypedExpression (T : Type) where
  | FieldElement (e : FieldElementExpression T)
  | Boolean (e : BooleanExpression T)
  | Uint (e : UExpression T)
  | Array (e : ArrayExpression T)
  | Struct (e : StructExpression T)
  | Int (e : IntExpression T)

/-- An array-literal entry: a plain expression or an array spread. -/
inductive TypedExpressionOrSpread (T : Type) where
  | Expression (e : TypedExpression T)
  | Spread (s : TypedSpread T)

/-- A spread of an array expression. -/
inductive TypedSpread (T : Type) where
  | mk (array : ArrayExpression T)

end

def ArrayType.ty {T : Type} : ArrayType T → GType T
  | .mk ty _ => ty

def ArrayType.size {T : Type} : ArrayType T → UExpression T
  | .mk _ size => size

def StructType.canonical {T : Type} : StructType T → Nat
  | .mk canonical _ => canonical

def StructType.members {T : Type} : StructType T → List (StructMember T)
  | .mk _ members => members

def StructMember.id {T : Type} : StructMember T → MemberId
  | .mk id _ => id

def StructMember.ty {T : Type} : StructMember T → GType T
  | .mk _ ty => ty

def UExpression.bitwidth {T : Type} : UExpression T → UBitwidth
  | .mk bitwidth _ => bitwidth

def UExpression.inner {T : Type} : UExpression T → UExpressionInner T
  | .mk _ inner => inner

def ArrayExpression.ty {T : Type} : ArrayExpression T → ArrayType T
  | .mk ty _ => ty

def ArrayExpression.inner {T : Type} : ArrayExpression T → ArrayExpressionInner T
  | .mk _ inner => inner

def StructExpression.ty {T : Type} : StructExpression T → StructType T
  | .mk ty _ => ty

def StructExpression.inner {T : Type} : StructExpression T → StructExpressionInner T
  | .mk _ inner => inner

def TypedSpread.array {T : Type} : TypedSpread T → ArrayExpression T
  | .mk array => array

/-- Modelled from the spec: a runtime variable: an identifier and its type
(Rust field `_type`), exactly the fields `fold_variable` rebuilds. -/
structure Variable (T : Type) where
  id : Identifier
  _type : GType T

/-- Modelled from the spec: a declaration-level variable, rebuilt by
`fold_declaration_variable`. -/
structure DeclarationVariable where
  id : Identifier
  _type : DeclarationType
deriving DecidableEq, Repr

/-- Modelled from the spec: a declared parameter: a declaration variable
plus the private/public visibility flag kept by `..p` in
`fold_parameter`. -/
structure DeclarationParameter where
  id : DeclarationVariable
  «private» : Bool
deriving DecidableEq, Repr

/-- Constructor set taken from the match in `fold_assignee`. -/
inductive TypedAssignee (T : Type) where
  | Identifier (v : Variable T)
  | Select (a : TypedAssignee T) (index : UExpression T)
  | Member (a : TypedAssignee T) (id : MemberId)

/-- Constructor set taken from the match in `fold_expression_list`. -/
inductive TypedExpressionList (T : Type) where
  | FunctionCall (key : Nat) (generics : List (Option (UExpression T)))
      (arguments : List (TypedExpression T)) (types : List (GType T))

/-- Modelled from the spec: the six statement forms folded by
`fold_statement` (its final catch-all arm returns any further form
unchanged; spec §3 lists exactly these six). -/
inductive TypedStatement (T : Type) where
  | Return (exprs : List (TypedExpression T))
  | Definition (a : TypedAssignee T) (e : TypedExpression T)
  | Declaration (v : Variable T)
  | Assertion (e : BooleanExpression T)
  | For (v : Variable T) (lo : UExpression T) (hi : UExpression T)
      (statements : List (TypedStatement T))
  | MultipleDefinition (assignees : List (TypedAssignee T)) (elist : TypedExpressionList T)

/-- Modelled from the spec: a function: declared parameters, statements,
and the remaining fields kept by `..fun` (here the opaque signature). -/
structure TypedFunction (T : Type) where
  arguments : List DeclarationParameter
  statements : List (TypedStatement T)
  signature : Nat

/-- Modelled from the spec: a module-level symbol: a locally defined
function body ("Here") or an opaque reference to a function of another
module ("There"). -/
inductive TypedFunctionSymbol (T : Type) where
  | Here (f : TypedFunction T)
  | There (key : Nat) (module_id : Nat)

/-- Modelled from the spec: a module: its function-key-to-symbol map
(association list in key order). -/
structure TypedModule (T : Type) where
  functions : List (Nat × TypedFunctionSymbol T)

/-- Modelled from the spec: a program: its module map and the id of the
main module. -/
structure TypedProgram (T : Type) where
  modules : List (Nat × TypedModule T)
  main : Nat

/-- Fallible state-threading list map: models
`iter().map(|x| f.fold_x(x)).collect::<Result<_, _>>()?` with `f: &mut F`
threaded in order and the first error short-circuiting. -/
def foldListState {S α β : Type} (f : S → α → FRes (S × β)) :
    S → List α → FRes (S × List β)
  | s, [] => pure (s, [])
  | s, a :: l => do
    let (s1, b) ← f s a
    let (s2, bs) ← foldListState f s1 l
    pure (s2, b :: bs)

/-- Fallible fold of an optional value: models
`g.map(|g| f.fold_x(g)).transpose()?`. -/
def foldOptionState {S α β : Type} (f : S → α → FRes (S × β)) (s : S) :
    Option α → FRes (S × Option β)
  | none => pure (s, none)
  | some a => do
    let (s1, b) ← f s a
    pure (s1, some b)

/-- An implementation of the Rust trait `ResultFolder<'ast, T>`: one record
field per overridable operation, holding the final (post-override)
operation; `&mut self` is the threaded state `S` and every operation may
fail. -/
structure ResultFolder (T S : Type) where
  fold_program : S → TypedProgram T → FRes (S × TypedProgram T)
  fold_module : S → TypedModule T → FRes (S × TypedModule T)
  fold_function_symbol : S → TypedFunctionSymbol T → FRes (S × TypedFunctionSymbol T)
  fold_function : S → TypedFunction T → FRes (S × TypedFunction T)
  fold_parameter : S → DeclarationParameter → FRes (S × DeclarationParameter)
  fold_name : S → Identifier → FRes (S × Identifier)
  fold_variable : S → Variable T → FRes (S × Variable T)
  fold_declaration_variable : S → DeclarationVariable → FRes (S × DeclarationVariable)
  fold_type : S → GType T → FRes (S × GType T)
  fold_array_type : S → ArrayType T → FRes (S × ArrayType T)
  fold_struct_type : S → StructType T → FRes (S × StructType T)
  fold_declaration_type : S → DeclarationType → FRes (S × DeclarationType)
  fold_assignee : S → TypedAssignee T → FRes (S × TypedAssignee T)
  fold_statement : S → TypedStatement T → FRes (S × List (TypedStatement T))
  fold_expression_or_spread :
    S → TypedExpressionOrSpread T → FRes (S × TypedExpressionOrSpread T)
  fold_spread : S → TypedSpread T → FRes (S × TypedSpread T)
  fold_expression : S → TypedExpression T → FRes (S × TypedExpression T)
  fold_array_expression : S → ArrayExpression T → FRes (S × ArrayExpression T)
  fold_struct_expression : S → StructExpression T → FRes (S × StructExpression T)
  fold_expression_list : S → TypedExpressionList T → FRes (S × TypedExpressionList T)
  fold_int_expression : S → IntExpression T → FRes (S × IntExpression T)
  fold_field_expression :
    S → FieldElementExpression T → FRes (S × FieldElementExpression T)
  fold_boolean_expression : S → BooleanExpression T → FRes (S × BooleanExpression T)
  fold_uint_expression : S → UExpression T → FRes (S × UExpression T)
  fold_uint_expression_inner :
    S → UBitwidth → UExpressionInner T → FRes (S × UExpressionInner T)
  fold_array_expression_inner :
    S → ArrayType T → ArrayExpressionInner T → FRes (S × ArrayExpressionInner T)
  fold_struct_expression_inner :
    S → StructType T → StructExpressionInner T → FRes (S × StructExpressionInner T)

/-! The overridable defaults of result_folder.rs, each dispatching back
into the implementation record exactly where the source dispatches into
`self`. Defaults written inline in the trait are translated the same way as
the free functions the other trait methods delegate to. -/

/-- result_folder.rs `fold_parameter` default (inline in the trait): fold
the declaration variable, keep the rest (`..p`). -/
def fold_parameter {T S : Type} (f : ResultFolder T S) (s : S)
    (p : DeclarationParameter) : FRes (S × DeclarationParameter) := do
  let (s1, id) ← f.fold_declaration_variable s p.id
  pure (s1, { id := id, «private» := p.«private» })

/-- result_folder.rs `fold_name` default (inline in the trait): identity. -/
def fold_name {T S : Type} (_f : ResultFolder T S) (s : S) (n : Identifier) :
    FRes (S × Identifier) :=
  pure (s, n)

/-- result_folder.rs `fold_variable` default (inline in the trait): fold
the name and the type. -/
def fold_variable {T S : Type} (f : ResultFolder T S) (s : S) (v : Variable T) :
    FRes (S × Variable T) := do
  let (s1, id) ← f.fold_name s v.id
  let (s2, t) ← f.fold_type s1 v._type
  pure (s2, { id := id, _type := t })

/-- result_folder.rs `fold_declaration_variable` default (inline in the
trait): fold the name and the declaration type. -/
def fold_declaration_variable {T S : Type} (f : ResultFolder T S) (s : S)
    (v : DeclarationVariable) : FRes (S × DeclarationVariable) := do
  let (s1, id) ← f.fold_name s v.id
  let (s2, t) ← f.fold_declaration_type s1 v._type
  pure (s2, { id := id, _type := t })

/-- result_folder.rs `fold_type` default (inline in the trait): recurse
into array and struct types, return every other type unchanged. -/
def fold_type {T S : Type} (f : ResultFolder T S) (s : S) :
    GType T → FRes (S × GType T)
  | .Array array_type => do
    let (s1, t) ← f.fold_array_type s array_type
    pure (s1, .Array t)
  | .Struct struct_type => do
    let (s1, t) ← f.fold_struct_type s struct_type
    pure (s1, .Struct t)
  | t => pure (s, t)

/-- result_folder.rs `fold_array_type` default (inline in the trait): fold
the element type, then the size expression. -/
def fold_array_type {T S : Type} (f : ResultFolder T S) (s : S) (t : ArrayType T) :
    FRes (S × ArrayType T) := do
  let (s1, ty) ← f.fold_type s t.ty
  let (s2, size) ← f.fold_uint_expression s1 t.size
  pure (s2, .mk ty size)

/-- result_folder.rs `fold_struct_type` default (inline in the trait): fold
each member's type keeping its id, keep the rest of the struct type
(`..t`). -/
def fold_struct_type {T S : Type} (f : ResultFolder T S) (s : S) (t : StructType T) :
    FRes (S × StructType T) := do
  let (s1, members) ← foldListState
    (fun s' (m : StructMember T) => do
      let (s'', ty) ← f.fold_type s' m.ty
      pure (s'', StructMember.mk m.id ty)) s t.members
  pure (s1, .mk t.canonical members)

/-- result_folder.rs `fold_declaration_type` default (inline in the
trait): identity. -/
def fold_declaration_type {T S : Type} (_f : ResultFolder T S) (s : S)
    (t : DeclarationType) : FRes (S × DeclarationType) :=
  pure (s, t)

/-- result_folder.rs `fold_assignee` default (inline in the trait). -/
def fold_assignee {T S : Type} (f : ResultFolder T S) (s : S) :
    TypedAssignee T → FRes (S × TypedAssignee T)
  | .Identifier v => do
    let (s1, v') ← f.fold_variable s v
    pure (s1, .Identifier v')
  | .Select a index => do
    let (s1, a') ← f.fold_assignee s a
    let (s2, index') ← f.fold_uint_expression s1 index
    pure (s2, .Select a' index')
  | .Member a m => do
    let (s1, a') ← f.fold_assignee s a
    pure (s1, .Member a' m)

/-- result_folder.rs free `fold_statement`: fold the payload of each of the
six statement forms (any further form would be returned unchanged by the
final catch-all arm) and return the single rebuilt statement as a
one-element list. -/
def fold_statement {T S : Type} (f : ResultFolder T S) (s : S)
    (st : TypedStatement T) : FRes (S × List (TypedStatement T)) := do
  let (s1, res) ← (match st with
    | .Return exprs => do
      let (s1, es) ← foldListState f.fold_expression s exprs
      pure (s1, TypedStatement.Return es)
    | .Definition a e => do
      let (s1, a') ← f.fold_assignee s a
      let (s2, e') ← f.fold_expression s1 e
      pure (s2, TypedStatement.Definition a' e')
    | .Declaration v => do
      let (s1, v') ← f.fold_variable s v
      pure (s1, TypedStatement.Declaration v')
    | .Assertion e => do
      let (s1, e') ← f.fold_boolean_expression s e
      pure (s1, TypedStatement.Assertion e')
    | .For v lo hi statements => do
      let (s1, v') ← f.fold_variable s v
      let (s2, lo') ← f.fold_uint_expression s1 lo
      let (s3, hi') ← f.fold_uint_expression s2 hi
      let (s4, sss) ← foldListState f.fold_statement s3 statements
      pure (s4, TypedStatement.For v' lo' hi' sss.flatten)
    | .MultipleDefinition vars elist => do
      let (s1, vs) ← foldListState f.fold_assignee s vars
      let (s2, elist') ← f.fold_expression_list s1 elist
      pure (s2, TypedStatement.MultipleDefinition vs elist') :
    FRes (S × TypedStatement T))
  pure (s1, [res])

/-- result_folder.rs `fold_expression_or_spread` default (inline in the
trait). -/
def fold_expression_or_spread {T S : Type} (f : ResultFolder T S) (s : S) :
    TypedExpressionOrSpread T → FRes (S × TypedExpressionOrSpread T)
  | .Expression e => do
    let (s1, e') ← f.fold_expression s e
    pure (s1, .Expression e')
  | .Spread sp => do
    let (s1, sp') ← f.fold_spread s sp
    pure (s1, .Spread sp')

/-- result_folder.rs `fold_spread` default (inline in the trait). -/
def fold_spread {T S : Type} (f : ResultFolder T S) (s : S) (sp : TypedSpread T) :
    FRes (S × TypedSpread T) := do
  let (s1, array) ← f.fold_array_expression s sp.array
  pure (s1, .mk array)

/-- result_folder.rs `fold_expression` default (inline in the trait): the
six-way kind dispatch; the `Int` branch routes into
`fold_int_expression`. -/
def fold_expression {T S : Type} (f : ResultFolder T S) (s : S) :
    TypedExpression T → FRes (S × TypedExpression T)
  | .FieldElement e => do
    let (s1, e') ← f.fold_field_expression s e
    pure (s1, .FieldElement e')
  | .Boolean e => do
    let (s1, e') ← f.fold_boolean_expression s e
    pure (s1, .Boolean e')
  | .Uint e => do
    let (s1, e') ← f.fold_uint_expression s e
    pure (s1, .Uint e')
  | .Array e => do
    let (s1, e') ← f.fold_array_expression s e
    pure (s1, .Array e')
  | .Struct e => do
    let (s1, e') ← f.fold_struct_expression s e
    pure (s1, .Struct e')
  | .Int e => do
    let (s1, e') ← f.fold_int_expression s e
    pure (s1, .Int e')

/-- result_folder.rs free `fold_array_expression`: folds the declared array
type first, passes the folded type to the inner fold, and stores the folded
type in the rebuilt node. -/
def fold_array_expression {T S : Type} (f : ResultFolder T S) (s : S)
    (e : ArrayExpression T) : FRes (S × ArrayExpression T) := do
  let (s1, ty) ← f.fold_array_type s e.ty
  let (s2, inner) ← f.fold_array_expression_inner s1 ty e.inner
  pure (s2, .mk ty inner)

/-- result_folder.rs free `fold_struct_expression`: passes the node's
declared struct type (unfolded) to the inner fold and keeps the original
type in the rebuilt node (`..e`); `fold_struct_type` is not invoked. -/
def fold_struct_expression {T S : Type} (f : ResultFolder T S) (s : S)
    (e : StructExpression T) : FRes (S × StructExpression T) := do
  let (s1, inner) ← f.fold_struct_expression_inner s e.ty e.inner
  pure (s1, .mk e.ty inner)

/-- result_folder.rs free `fold_expression_list`: fold the generics, the
arguments and the declared types of the call, keeping its key. -/
def fold_expression_list {T S : Type} (f : ResultFolder T S) (s : S) :
    TypedExpressionList T → FRes (S × TypedExpressionList T)
  | .FunctionCall id generics arguments types => do
    let (s1, generics') ← foldListState
      (foldOptionState f.fold_uint_expression) s generics
    let (s2, arguments') ← foldListState f.fold_expression s1 arguments
    let (s3, types') ← foldListState f.fold_type s2 types
    pure (s3, .FunctionCall id generics' arguments' types')

/-- result_folder.rs free `fold_int_expression`: `unreachable!()` — the
fold never returns normally; reaching it is the fatal broken-invariant
panic, not an ordinary compile error. -/
def fold_int_expression {T S : Type} (_f : ResultFolder T S) (_s : S)
    (_e : IntExpression T) : FRes (S × IntExpression T) :=
  .error .Fatal

/-- result_folder.rs free `fold_field_expression`. -/
def fold_field_expression {T S : Type} (f : ResultFolder T S) (s : S) :
    FieldElementExpression T → FRes (S × FieldElementExpression T)
  | .Number n => pure (s, .Number n)
  | .Identifier id => do
    let (s1, id') ← f.fold_name s id
    pure (s1, .Identifier id')
  | .Add e1 e2 => do
    let (s1, e1') ← f.fold_field_expression s e1
    let (s2, e2') ← f.fold_field_expression s1 e2
    pure (s2, .Add e1' e2')
  | .Sub e1 e2 => do
    let (s1, e1') ← f.fold_field_expression s e1
    let (s2, e2') ← f.fold_field_expression s1 e2
    pure (s2, .Sub e1' e2')
  | .Mult e1 e2 => do
    let (s1, e1') ← f.fold_field_expression s e1
    let (s2, e2') ← f.fold_field_expression s1 e2
    pure (s2, .Mult e1' e2')
  | .Div e1 e2 => do
    let (s1, e1') ← f.fold_field_expression s e1
    let (s2, e2') ← f.fold_field_expression s1 e2
    pure (s2, .Div e1' e2')
  | .Pow e1 e2 => do
    let (s1, e1') ← f.fold_field_expression s e1
    let (s2, e2') ← f.fold_uint_expression s1 e2
    pure (s2, .Pow e1' e2')
  | .IfElse cond cons alt => do
    let (s1, cond') ← f.fold_boolean_expression s cond
    let (s2, cons') ← f.fold_field_expression s1 cons
    let (s3, alt') ← f.fold_field_expression s2 alt
    pure (s3, .IfElse cond' cons' alt')
  | .FunctionCall key generics exps => do
    let (s1, generics') ← foldListState
      (foldOptionState f.fold_uint_expression) s generics
    let (s2, exps') ← foldListState f.fold_expression s1 exps
    pure (s2, .FunctionCall key generics' exps')
  | .Member st id => do
    let (s1, st') ← f.fold_struct_expression s st
    pure (s1, .Member st' id)
  | .Select array index => do
    let (s1, array') ← f.fold_array_expression s array
    let (s2, index') ← f.fold_uint_expression s1 index
    pure (s2, .Select array' index')

/-- result_folder.rs free `fold_boolean_expression`. -/
def fold_boolean_expression {T S : Type} (f : ResultFolder T S) (s : S) :
    BooleanExpression T → FRes (S × BooleanExpression T)
  | .Value v => pure (s, .Value v)
  | .Identifier id => do
    let (s1, id') ← f.fold_name s id
    pure (s1, .Identifier id')
  | .FieldEq e1 e2 => do
    let (s1, e1') ← f.fold_field_expression s e1
    let (s2, e2') ← f.fold_field_expression s1 e2
    pure (s2, .FieldEq e1' e2')
  | .BoolEq e1 e2 => do
    let (s1, e1') ← f.fold_boolean_expression s e1
    let (s2, e2') ← f.fold_boolean_expression s1 e2
    pure (s2, .BoolEq e1' e2')
  | .ArrayEq e1 e2 => do
    let (s1, e1') ← f.fold_array_expression s e1
    let (s2, e2') ← f.fold_array_expression s1 e2
    pure (s2, .ArrayEq e1' e2')
  | .StructEq e1 e2 => do
    let (s1, e1') ← f.fold_struct_expression s e1
    let (s2, e2') ← f.fold_struct_expression s1 e2
    pure (s2, .StructEq e1' e2')
  | .UintEq e1 e2 => do
    let (s1, e1') ← f.fold_uint_expression s e1
    let (s2, e2') ← f.fold_uint_expression s1 e2
    pure (s2, .UintEq e1' e2')
  | .FieldLt e1 e2 => do
    let (s1, e1') ← f.fold_field_expression s e1
    let (s2, e2') ← f.fold_field_expression s1 e2
    pure (s2, .FieldLt e1' e2')
  | .FieldLe e1 e2 => do
    let (s1, e1') ← f.fold_field_expression s e1
    let (s2, e2') ← f.fold_field_expression s1 e2
    pure (s2, .FieldLe e1' e2')
  | .FieldGt e1 e2 => do
    let (s1, e1') ← f.fold_field_expression s e1
    let (s2, e2') ← f.fold_field_expression s1 e2
    pure (s2, .FieldGt e1' e2')
  | .FieldGe e1 e2 => do
    let (s1, e1') ← f.fold_field_expression s e1
    let (s2, e2') ← f.fold_field_expression s1 e2
    pure (s2, .FieldGe e1' e2')
  | .UintLt e1 e2 => do
    let (s1, e1') ← f.fold_uint_expression s e1
    let (s2, e2') ← f.fold_uint_expression s1 e2
    pure (s2, .UintLt e1' e2')
  | .UintLe e1 e2 => do
    let (s1, e1') ← f.fold_uint_expression s e1
    let (s2, e2') ← f.fold_uint_expression s1 e2
    pure (s2, .UintLe e1' e2')
  | .UintGt e1 e2 => do
    let (s1, e1') ← f.fold_uint_expression s e1
    let (s2, e2') ← f.fold_uint_expression s1 e2
    pure (s2, .UintGt e1' e2')
  | .UintGe e1 e2 => do
    let (s1, e1') ← f.fold_uint_expression s e1
    let (s2, e2') ← f.fold_uint_expression s1 e2
    pure (s2, .UintGe e1' e2')
  | .Or e1 e2 => do
    let (s1, e1') ← f.fold_boolean_expression s e1
    let (s2, e2') ← f.fold_boolean_expression s1 e2
    pure (s2, .Or e1' e2')
  | .And e1 e2 => do
    let (s1, e1') ← f.fold_boolean_expression s e1
    let (s2, e2') ← f.fold_boolean_expression s1 e2
    pure (s2, .And e1' e2')
  | .Not e => do
    let (s1, e') ← f.fold_boolean_expression s e
    pure (s1, .Not e')
  | .FunctionCall key generics exps => do
    let (s1, generics') ← foldListState
      (foldOptionState f.fold_uint_expression) s generics
    let (s2, exps') ← foldListState f.fold_expression s1 exps
    pure (s2, .FunctionCall key generics' exps')
  | .IfElse cond cons alt => do
    let (s1, cond') ← f.fold_boolean_expression s cond
    let (s2, cons') ← f.fold_boolean_expression s1 cons
    let (s3, alt') ← f.fold_boolean_expression s2 alt
    pure (s3, .IfElse cond' cons' alt')
  | .Member st id => do
    let (s1, st') ← f.fold_struct_expression s st
    pure (s1, .Member st' id)
  | .Select array index => do
    let (s1, array') ← f.fold_array_expression s array
    let (s2, index') ← f.fold_uint_expression s1 index
    pure (s2, .Select array' index')

/-- result_folder.rs free `fold_uint_expression`: fold the inner node under
the node's bitwidth, keep the rest (`..e`). -/
def fold_uint_expression {T S : Type} (f : ResultFolder T S) (s : S)
    (e : UExpression T) : FRes (S × UExpression T) := do
  let (s1, inner) ← f.fold_uint_expression_inner s e.bitwidth e.inner
  pure (s1, .mk e.bitwidth inner)

/-- result_folder.rs free `fold_uint_expression_inner` (the bitwidth
argument is ignored by the default). -/
def fold_uint_expression_inner {T S : Type} (f : ResultFolder T S) (s : S)
    (_bitwidth : UBitwidth) :
    UExpressionInner T → FRes (S × UExpressionInner T)
  | .Value v => pure (s, .Value v)
  | .Identifier id => do
    let (s1, id') ← f.fold_name s id
    pure (s1, .Identifier id')
  | .Add l r => do
    let (s1, l') ← f.fold_uint_expression s l
    let (s2, r') ← f.fold_uint_expression s1 r
    pure (s2, .Add l' r')
  | .Sub l r => do
    let (s1, l') ← f.fold_uint_expression s l
    let (s2, r') ← f.fold_uint_expression s1 r
    pure (s2, .Sub l' r')
  | .FloorSub l r => do
    let (s1, l') ← f.fold_uint_expression s l
    let (s2, r') ← f.fold_uint_expression s1 r
    pure (s2, .FloorSub l' r')
  | .Mult l r => do
    let (s1, l') ← f.fold_uint_expression s l
    let (s2, r') ← f.fold_uint_expression s1 r
    pure (s2, .Mult l' r')
  | .Div l r => do
    let (s1, l') ← f.fold_uint_expression s l
    let (s2, r') ← f.fold_uint_expression s1 r
    pure (s2, .Div l' r')
  | .Rem l r => do
    let (s1, l') ← f.fold_uint_expression s l
    let (s2, r') ← f.fold_uint_expression s1 r
    pure (s2, .Rem l' r')
  | .Xor l r => do
    let (s1, l') ← f.fold_uint_expression s l
    let (s2, r') ← f.fold_uint_expression s1 r
    pure (s2, .Xor l' r')
  | .And l r => do
    let (s1, l') ← f.fold_uint_expression s l
    let (s2, r') ← f.fold_uint_expression s1 r
    pure (s2, .And l' r')
  | .Or l r => do
    let (s1, l') ← f.fold_uint_expression s l
    let (s2, r') ← f.fold_uint_expression s1 r
    pure (s2, .Or l' r')
  | .LeftShift e b => do
    let (s1, e') ← f.fold_uint_expression s e
    let (s2, b') ← f.fold_field_expression s1 b
    pure (s2, .LeftShift e' b')
  | .RightShift e b => do
    let (s1, e') ← f.fold_uint_expression s e
    let (s2, b') ← f.fold_field_expression s1 b
    pure (s2, .RightShift e' b')
  | .Not e => do
    let (s1, e') ← f.fold_uint_expression s e
    pure (s1, .Not e')
  | .FunctionCall key generics exps => do
    let (s1, generics') ← foldListState
      (foldOptionState f.fold_uint_expression) s generics
    let (s2, exps') ← foldListState f.fold_expression s1 exps
    pure (s2, .FunctionCall key generics' exps')
  | .Select array index => do
    let (s1, array') ← f.fold_array_expression s array
    let (s2, index') ← f.fold_uint_expression s1 index
    pure (s2, .Select array' index')
  | .IfElse cond cons alt => do
    let (s1, cond') ← f.fold_boolean_expression s cond
    let (s2, cons') ← f.fold_uint_expression s1 cons
    let (s3, alt') ← f.fold_uint_expression s2 alt
    pure (s3, .IfElse cond' cons' alt')
  | .Member st id => do
    let (s1, st') ← f.fold_struct_expression s st
    pure (s1, .Member st' id)

/-- result_folder.rs free `fold_array_expression_inner` (the array-type
argument is ignored by the default). -/
def fold_array_expression_inner {T S : Type} (f : ResultFolder T S) (s : S)
    (_ty : ArrayType T) :
    ArrayExpressionInner T → FRes (S × ArrayExpressionInner T)
  | .Identifier id => do
    let (s1, id') ← f.fold_name s id
    pure (s1, .Identifier id')
  | .Value exprs => do
    let (s1, exprs') ← foldListState f.fold_expression_or_spread s exprs
    pure (s1, .Value exprs')
  | .FunctionCall key generics exps => do
    let (s1, generics') ← foldListState
      (foldOptionState f.fold_uint_expression) s generics
    let (s2, exps') ← foldListState f.fold_expression s1 exps
    pure (s2, .FunctionCall key generics' exps')
  | .IfElse cond cons alt => do
    let (s1, cond') ← f.fold_boolean_expression s cond
    let (s2, cons') ← f.fold_array_expression s1 cons
    let (s3, alt') ← f.fold_array_expression s2 alt
    pure (s3, .IfElse cond' cons' alt')
  | .Member st id => do
    let (s1, st') ← f.fold_struct_expression s st
    pure (s1, .Member st' id)
  | .Select array index => do
    let (s1, array') ← f.fold_array_expression s array
    let (s2, index') ← f.fold_uint_expression s1 index
    pure (s2, .Select array' index')
  | .Slice array lo hi => do
    let (s1, array') ← f.fold_array_expression s array
    let (s2, lo') ← f.fold_uint_expression s1 lo
    let (s3, hi') ← f.fold_uint_expression s2 hi
    pure (s3, .Slice array' lo' hi')
  | .Repeat e count => do
    let (s1, e') ← f.fold_expression s e
    let (s2, count') ← f.fold_uint_expression s1 count
    pure (s2, .Repeat e' count')

/-- result_folder.rs free `fold_struct_expression_inner` (the struct-type
argument is ignored by the default). -/
def fold_struct_expression_inner {T S : Type} (f : ResultFolder T S) (s : S)
    (_ty : StructType T) :
    StructExpressionInner T → FRes (S × StructExpressionInner T)
  | .Identifier id => do
    let (s1, id') ← f.fold_name s id
    pure (s1, .Identifier id')
  | .Value exprs => do
    let (s1, exprs') ← foldListState f.fold_expression s exprs
    pure (s1, .Value exprs')
  | .FunctionCall key generics exps => do
    let (s1, generics') ← foldListState
      (foldOptionState f.fold_uint_expression) s generics
    let (s2, exps') ← foldListState f.fold_expression s1 exps
    pure (s2, .FunctionCall key generics' exps')
  | .IfElse cond cons alt => do
    let (s1, cond') ← f.fold_boolean_expression s cond
    let (s2, cons') ← f.fold_struct_expression s1 cons
    let (s3, alt') ← f.fold_struct_expression s2 alt
    pure (s3, .IfElse cond' cons' alt')
  | .Member st id => do
    let (s1, st') ← f.fold_struct_expression s st
    pure (s1, .Member st' id)
  | .Select array index => do
    let (s1, array') ← f.fold_array_expression s array
    let (s2, index') ← f.fold_uint_expression s1 index
    pure (s2, .Select array' index')

/-- result_folder.rs free `fold_function`: fold the parameters, then the
statements (flattening the per-statement lists), keep the rest (`..fun`). -/
def fold_function {T S : Type} (f : ResultFolder T S) (s : S)
    (fn : TypedFunction T) : FRes (S × TypedFunction T) := do
  let (s1, arguments) ← foldListState f.fold_parameter s fn.arguments
  let (s2, sss) ← foldListState f.fold_statement s1 fn.statements
  pure (s2,
    { arguments := arguments, statements := sss.flatten, signature := fn.signature })

/-- result_folder.rs free `fold_function_symbol`: fold the function of a
"Here" symbol; return any other symbol unchanged ("by default, do not fold
modules recursively"). -/
def fold_function_symbol {T S : Type} (f : ResultFolder T S) (s : S) :
    TypedFunctionSymbol T → FRes (S × TypedFunctionSymbol T)
  | .Here fn => do
    let (s1, fn') ← f.fold_function s fn
    pure (s1, .Here fn')
  | there => pure (s, there)

/-- result_folder.rs free `fold_module`: fold each function symbol, keeping
its key. -/
def fold_module {T S : Type} (f : ResultFolder T S) (s : S) (p : TypedModule T) :
    FRes (S × TypedModule T) := do
  let (s1, functions) ← foldListState
    (fun s' (kf : Nat × TypedFunctionSymbol T) => do
      let (s'', sym) ← f.fold_function_symbol s' kf.2
      pure (s'', (kf.1, sym))) s p.functions
  pure (s1, { functions := functions })

/-- result_folder.rs free `fold_program`: fold each module, keeping its id
and the main module id. -/
def fold_program {T S : Type} (f : ResultFolder T S) (s : S) (p : TypedProgram T) :
    FRes (S × TypedProgram T) := do
  let (s1, modules) ← foldListState
    (fun s' (km : Nat × TypedModule T) => do
      let (s'', m) ← f.fold_module s' km.2
      pure (s'', (km.1, m))) s p.modules
  pure (s1, { modules := modules, main := p.main })

/-- Modelled from the spec: the claim's reading of `fold_struct_expression`
— "folding an array or struct expression first folds its declared
type/shape, then passes that folded type into the inner-expression fold",
with the folded type stored in the rebuilt node. Used only as the
comparison point for the refutation of that reading on the struct side. -/
def fold_struct_expression_per_spec {T S : Type} (f : ResultFolder T S) (s : S)
    (e : StructExpression T) : FRes (S × StructExpression T) := do
  let (s1, ty) ← f.fold_struct_type s e.ty
  let (s2, inner) ← f.fold_struct_expression_inner s1 ty e.inner
  pure (s2, .mk ty inner)

/-! The no-override implementation of `ResultFolder`: Rust resolves every
`self.fold_x` call of a default method against the final implementation,
which here is the default itself, so the no-override instance is the
mutually recursive monomorphization of the defaults above with every
`f.fold_x` replaced by the corresponding `default_fold_x`. Single-field
`..`-style projections are realized by pattern matching on the one
constructor, and each in-line `collect()` over a recursive fold becomes an
explicit mutually recursive list fold so that the recursion is visibly
structural. -/

/-- `fold_name` default, monomorphized. -/
def default_fold_name {S : Type} (s : S) (n : Identifier) : FRes (S × Identifier) :=
  pure (s, n)

/-- `fold_declaration_type` default, monomorphized. -/
def default_fold_declaration_type {S : Type} (s : S) (t : DeclarationType) :
    FRes (S × DeclarationType) :=
  pure (s, t)

/-- `fold_int_expression` default, monomorphized: `unreachable!()`. -/
def default_fold_int_expression {T S : Type} (_s : S) (_e : IntExpression T) :
    FRes (S × IntExpression T) :=
  .error .Fatal

set_option maxHeartbeats 12800000 in
mutual

/-- `fold_type` default, monomorphized. -/
def default_fold_type {T S : Type} (s : S) : GType T → FRes (S × GType T)
  | .Array array_type => do
    let (s1, t) ← default_fold_array_type s array_type
    pure (s1, GType.Array t)
  | .Struct struct_type => do
    let (s1, t) ← default_fold_struct_type s struct_type
    pure (s1, GType.Struct t)
  | t => pure (s, t)
termination_by t => sizeOf t

/-- `fold_array_type` default, monomorphized. -/
def default_fold_array_type {T S : Type} (s : S) :
    ArrayType T → FRes (S × ArrayType T)
  | .mk ty size => do
    let (s1, ty') ← default_fold_type s ty
    let (s2, size') ← default_fold_uint_expression s1 size
    pure (s2, ArrayType.mk ty' size')
termination_by t => sizeOf t

/-- `fold_struct_type` default, monomorphized. -/
def default_fold_struct_type {T S : Type} (s : S) :
    StructType T → FRes (S × StructType T)
  | .mk canonical members => do
    let (s1, members') ← default_fold_struct_members s members
    pure (s1, StructType.mk canonical members')
termination_by t => sizeOf t

/-- The member-list `collect()` inside the `fold_struct_type` default. -/
def default_fold_struct_members {T S : Type} (s : S) :
    List (StructMember T) → FRes (S × List (StructMember T))
  | [] => pure (s, [])
  | .mk id ty :: l => do
    let (s1, ty') ← default_fold_type s ty
    let (s2, l') ← default_fold_struct_members s1 l
    pure (s2, StructMember.mk id ty' :: l')
termination_by l => sizeOf l

/-- `fold_uint_expression` default, monomorphized. -/
def default_fold_uint_expression {T S : Type} (s : S) :
    UExpression T → FRes (S × UExpression T)
  | .mk bitwidth inner => do
    let (s1, inner') ← default_fold_uint_expression_inner s bitwidth inner
    pure (s1, UExpression.mk bitwidth inner')
termination_by e => sizeOf e

/-- `fold_uint_expression_inner` default, monomorphized. -/
def default_fold_uint_expression_inner {T S : Type} (s : S) (_bitwidth : UBitwidth) :
    UExpressionInner T → FRes (S × UExpressionInner T)
  | .Value v => pure (s, .Value v)
  | .Identifier id => do
    let (s1, id') ← default_fold_name s id
    pure (s1, .Identifier id')
  | .Add l r => do
    let (s1, l') ← default_fold_uint_expression s l
    let (s2, r') ← default_fold_uint_expression s1 r
    pure (s2, .Add l' r')
  | .Sub l r => do
    let (s1, l') ← default_fold_uint_expression s l
    let (s2, r') ← default_fold_uint_expression s1 r
    pure (s2, .Sub l' r')
  | .FloorSub l r => do
    let (s1, l') ← default_fold_uint_expression s l
    let (s2, r') ← default_fold_uint_expression s1 r
    pure (s2, .FloorSub l' r')
  | .Mult l r => do
    let (s1, l') ← default_fold_uint_expression s l
    let (s2, r') ← default_fold_uint_expression s1 r
    pure (s2, .Mult l' r')
  | .Div l r => do
    let (s1, l') ← default_fold_uint_expression s l
    let (s2, r') ← default_fold_uint_expression s1 r
    pure (s2, .Div l' r')
  | .Rem l r => do
    let (s1, l') ← default_fold_uint_expression s l
    let (s2, r') ← default_fold_uint_expression s1 r
    pure (s2, .Rem l' r')
  | .Xor l r => do
    let (s1, l') ← default_fold_uint_expression s l
    let (s2, r') ← default_fold_uint_expression s1 r
    pure (s2, .Xor l' r')
  | .And l r => do
    let (s1, l') ← default_fold_uint_expression s l
    let (s2, r') ← default_fold_uint_expression s1 r
    pure (s2, .And l' r')
  | .Or l r => do
    let (s1, l') ← default_fold_uint_expression s l
    let (s2, r') ← default_fold_uint_expression s1 r
    pure (s2, .Or l' r')
  | .LeftShift e b => do
    let (s1, e') ← default_fold_uint_expression s e
    let (s2, b') ← default_fold_field_expression s1 b
    pure (s2, .LeftShift e' b')
  | .RightShift e b => do
    let (s1, e') ← default_fold_uint_expression s e
    let (s2, b') ← default_fold_field_expression s1 b
    pure (s2, .RightShift e' b')
  | .Not e => do
    let (s1, e') ← default_fold_uint_expression s e
    pure (s1, .Not e')
  | .FunctionCall key generics exps => do
    let (s1, generics') ← default_fold_generics s generics
    let (s2, exps') ← default_fold_expressions s1 exps
    pure (s2, .FunctionCall key generics' exps')
  | .Select array index => do
    let (s1, array') ← default_fold_array_expression s array
    let (s2, index') ← default_fold_uint_expression s1 index
    pure (s2, .Select array' index')
  | .IfElse cond cons alt => do
    let (s1, cond') ← default_fold_boolean_expression s cond
    let (s2, cons') ← default_fold_uint_expression s1 cons
    let (s3, alt') ← default_fold_uint_expression s2 alt
    pure (s3, .IfElse cond' cons' alt')
  | .Member st id => do
    let (s1, st') ← default_fold_struct_expression s st
    pure (s1, .Member st' id)
termination_by e => sizeOf e

/-- `fold_field_expression` default, monomorphized. -/
def default_fold_field_expression {T S : Type} (s : S) :
    FieldElementExpression T → FRes (S × FieldElementExpression T)
  | .Number n => pure (s, .Number n)
  | .Identifier id => do
    let (s1, id') ← default_fold_name s id
    pure (s1, .Identifier id')
  | .Add e1 e2 => do
    let (s1, e1') ← default_fold_field_expression s e1
    let (s2, e2') ← default_fold_field_expression s1 e2
    pure (s2, .Add e1' e2')
  | .Sub e1 e2 => do
    let (s1, e1') ← default_fold_field_expression s e1
    let (s2, e2') ← default_fold_field_expression s1 e2
    pure (s2, .Sub e1' e2')
  | .Mult e1 e2 => do
    let (s1, e1') ← default_fold_field_expression s e1
    let (s2, e2') ← default_fold_field_expression s1 e2
    pure (s2, .Mult e1' e2')
  | .Div e1 e2 => do
    let (s1, e1') ← default_fold_field_expression s e1
    let (s2, e2') ← default_fold_field_expression s1 e2
    pure (s2, .Div e1' e2')
  | .Pow e1 e2 => do
    let (s1, e1') ← default_fold_field_expression s e1
    let (s2, e2') ← default_fold_uint_expression s1 e2
    pure (s2, .Pow e1' e2')
  | .IfElse cond cons alt => do
    let (s1, cond') ← default_fold_boolean_expression s cond
    let (s2, cons') ← default_fold_field_expression s1 cons
    let (s3, alt') ← default_fold_field_expression s2 alt
    pure (s3, .IfElse cond' cons' alt')
  | .FunctionCall key generics exps => do
    let (s1, generics') ← default_fold_generics s generics
    let (s2, exps') ← default_fold_expressions s1 exps
    pure (s2, .FunctionCall key generics' exps')
  | .Member st id => do
    let (s1, st') ← default_fold_struct_expression s st
    pure (s1, .Member st' id)
  | .Select array index => do
    let (s1, array') ← default_fold_array_expression s array
    let (s2, index') ← default_fold_uint_expression s1 index
    pure (s2, .Select array' index')
termination_by e => sizeOf e

/-- `fold_boolean_expression` default, monomorphized. -/
def default_fold_boolean_expression {T S : Type} (s : S) :
    BooleanExpression T → FRes (S × BooleanExpression T)
  | .Value v => pure (s, .Value v)
  | .Identifier id => do
    let (s1, id') ← default_fold_name s id
    pure (s1, .Identifier id')
  | .FieldEq e1 e2 => do
    let (s1, e1') ← default_fold_field_expression s e1
    let (s2, e2') ← default_fold_field_expression s1 e2
    pure (s2, .FieldEq e1' e2')
  | .BoolEq e1 e2 => do
    let (s1, e1') ← default_fold_boolean_expression s e1
    let (s2, e2') ← default_fold_boolean_expression s1 e2
    pure (s2, .BoolEq e1' e2')
  | .ArrayEq e1 e2 => do
    let (s1, e1') ← default_fold_array_expression s e1
    let (s2, e2') ← default_fold_array_expression s1 e2
    pure (s2, .ArrayEq e1' e2')
  | .StructEq e1 e2 => do
    let (s1, e1') ← default_fold_struct_expression s e1
    let (s2, e2') ← default_fold_struct_expression s1 e2
    pure (s2, .StructEq e1' e2')
  | .UintEq e1 e2 => do
    let (s1, e1') ← default_fold_uint_expression s e1
    let (s2, e2') ← default_fold_uint_expression s1 e2
    pure (s2, .UintEq e1' e2')
  | .FieldLt e1 e2 => do
    let (s1, e1') ← default_fold_field_expression s e1
    let (s2, e2') ← default_fold_field_expression s1 e2
    pure (s2, .FieldLt e1' e2')
  | .FieldLe e1 e2 => do
    let (s1, e1') ← default_fold_field_expression s e1
    let (s2, e2') ← default_fold_field_expression s1 e2
    pure (s2, .FieldLe e1' e2')
  | .FieldGt e1 e2 => do
    let (s1, e1') ← default_fold_field_expression s e1
    let (s2, e2') ← default_fold_field_expression s1 e2
    pure (s2, .FieldGt e1' e2')
  | .FieldGe e1 e2 => do
    let (s1, e1') ← default_fold_field_expression s e1
    let (s2, e2') ← default_fold_field_expression s1 e2
    pure (s2, .FieldGe e1' e2')
  | .UintLt e1 e2 => do
    let (s1, e1') ← default_fold_uint_expression s e1
    let (s2, e2') ← default_fold_uint_expression s1 e2
    pure (s2, .UintLt e1' e2')
  | .UintLe e1 e2 => do
    let (s1, e1') ← default_fold_uint_expression s e1
    let (s2, e2') ← default_fold_uint_expression s1 e2
    pure (s2, .UintLe e1' e2')
  | .UintGt e1 e2 => do
    let (s1, e1') ← default_fold_uint_expression s e1
    let (s2, e2') ← default_fold_uint_expression s1 e2
    pure (s2, .UintGt e1' e2')
  | .UintGe e1 e2 => do
    let (s1, e1') ← default_fold_uint_expression s e1
    let (s2, e2') ← default_fold_uint_expression s1 e2
    pure (s2, .UintGe e1' e2')
  | .Or e1 e2 => do
    let (s1, e1') ← default_fold_boolean_expression s e1
    let (s2, e2') ← default_fold_boolean_expression s1 e2
    pure (s2, .Or e1' e2')
  | .And e1 e2 => do
    let (s1, e1') ← default_fold_boolean_expression s e1
    let (s2, e2') ← default_fold_boolean_expression s1 e2
    pure (s2, .And e1' e2')
  | .Not e => do
    let (s1, e') ← default_fold_boolean_expression s e
    pure (s1, .Not e')
  | .FunctionCall key generics exps => do
    let (s1, generics') ← default_fold_generics s generics
    let (s2, exps') ← default_fold_expressions s1 exps
    pure (s2, .FunctionCall key generics' exps')
  | .IfElse cond cons alt => do
    let (s1, cond') ← default_fold_boolean_expression s cond
    let (s2, cons') ← default_fold_boolean_expression s1 cons
    let (s3, alt') ← default_fold_boolean_expression s2 alt
    pure (s3, .IfElse cond' cons' alt')
  | .Member st id => do
    let (s1, st') ← default_fold_struct_expression s st
    pure (s1, .Member st' id)
  | .Select array index => do
    let (s1, array') ← default_fold_array_expression s array
    let (s2, index') ← default_fold_uint_expression s1 index
    pure (s2, .Select array' index')
termination_by e => sizeOf e

/-- `fold_array_expression` default, monomorphized: fold the type, pass the
folded type to the inner fold, store the folded type. -/
def default_fold_array_expression {T S : Type} (s : S) :
    ArrayExpression T → FRes (S × ArrayExpression T)
  | .mk ty inner => do
    let (s1, ty') ← default_fold_array_type s ty
    let (s2, inner') ← default_fold_array_expression_inner s1 ty' inner
    pure (s2, ArrayExpression.mk ty' inner')
termination_by e => sizeOf e

/-- `fold_array_expression_inner` default, monomorphized. -/
def default_fold_array_expression_inner {T S : Type} (s : S) (_ty : ArrayType T) :
    ArrayExpressionInner T → FRes (S × ArrayExpressionInner T)
  | .Identifier id => do
    let (s1, id') ← default_fold_name s id
    pure (s1, .Identifier id')
  | .Value exprs => do
    let (s1, exprs') ← default_fold_eos_list s exprs
    pure (s1, .Value exprs')
  | .FunctionCall key generics exps => do
    let (s1, generics') ← default_fold_generics s generics
    let (s2, exps') ← default_fold_expressions s1 exps
    pure (s2, .FunctionCall key generics' exps')
  | .IfElse cond cons alt => do
    let (s1, cond') ← default_fold_boolean_expression s cond
    let (s2, cons') ← default_fold_array_expression s1 cons
    let (s3, alt') ← default_fold_array_expression s2 alt
    pure (s3, .IfElse cond' cons' alt')
  | .Member st id => do
    let (s1, st') ← default_fold_struct_expression s st
    pure (s1, .Member st' id)
  | .Select array index => do
    let (s1, array') ← default_fold_array_expression s array
    let (s2, index') ← default_fold_uint_expression s1 index
    pure (s2, .Select array' index')
  | .Slice array lo hi => do
    let (s1, array') ← default_fold_array_expression s array
    let (s2, lo') ← default_fold_uint_expression s1 lo
    let (s3, hi') ← default_fold_uint_expression s2 hi
    pure (s3, .Slice array' lo' hi')
  | .Repeat e count => do
    let (s1, e') ← default_fold_expression s e
    let (s2, count') ← default_fold_uint_expression s1 count
    pure (s2, .Repeat e' count')
termination_by e => sizeOf e

/-- `fold_struct_expression` default, monomorphized: the unfolded declared
type is passed to the inner fold and kept in the rebuilt node. -/
def default_fold_struct_expression {T S : Type} (s : S) :
    StructExpression T → FRes (S × StructExpression T)
  | .mk ty inner => do
    let (s1, inner') ← default_fold_struct_expression_inner s ty inner
    pure (s1, StructExpression.mk ty inner')
termination_by e => sizeOf e

/-- `fold_struct_expression_inner` default, monomorphized. -/
def default_fold_struct_expression_inner {T S : Type} (s : S) (_ty : StructType T) :
    StructExpressionInner T → FRes (S × StructExpressionInner T)
  | .Identifier id => do
    let (s1, id') ← default_fold_name s id
    pure (s1, .Identifier id')
  | .Value exprs => do
    let (s1, exprs') ← default_fold_expressions s exprs
    pure (s1, .Value exprs')
  | .FunctionCall key generics exps => do
    let (s1, generics') ← default_fold_generics s generics
    let (s2, exps') ← default_fold_expressions s1 exps
    pure (s2, .FunctionCall key generics' exps')
  | .IfElse cond cons alt => do
    let (s1, cond') ← default_fold_boolean_expression s cond
    let (s2, cons') ← default_fold_struct_expression s1 cons
    let (s3, alt') ← default_fold_struct_expression s2 alt
    pure (s3, .IfElse cond' cons' alt')
  | .Member st id => do
    let (s1, st') ← default_fold_struct_expression s st
    pure (s1, .Member st' id)
  | .Select array index => do
    let (s1, array') ← default_fold_array_expression s array
    let (s2, index') ← default_fold_uint_expression s1 index
    pure (s2, .Select array' index')
termination_by e => sizeOf e

/-- `fold_expression` default, monomorphized. -/
def default_fold_expression {T S : Type} (s : S) :
    TypedExpression T → FRes (S × TypedExpression T)
  | .FieldElement e => do
    let (s1, e') ← default_fold_field_expression s e
    pure (s1, TypedExpression.FieldElement e')
  | .Boolean e => do
    let (s1, e') ← default_fold_boolean_expression s e
    pure (s1, TypedExpression.Boolean e')
  | .Uint e => do
    let (s1, e') ← default_fold_uint_expression s e
    pure (s1, TypedExpression.Uint e')
  | .Array e => do
    let (s1, e') ← default_fold_array_expression s e
    pure (s1, TypedExpression.Array e')
  | .Struct e => do
    let (s1, e') ← default_fold_struct_expression s e
    pure (s1, TypedExpression.Struct e')
  | .Int e => do
    let (s1, e') ← default_fold_int_expression s e
    pure (s1, TypedExpression.Int e')
termination_by e => sizeOf e

/-- `fold_expression_or_spread` default, monomorphized. -/
def default_fold_expression_or_spread {T S : Type} (s : S) :
    TypedExpressionOrSpread T → FRes (S × TypedExpressionOrSpread T)
  | .Expression e => do
    let (s1, e') ← default_fold_expression s e
    pure (s1, TypedExpressionOrSpread.Expression e')
  | .Spread sp => do
    let (s1, sp') ← default_fold_spread s sp
    pure (s1, TypedExpressionOrSpread.Spread sp')
termination_by e => sizeOf e

/-- `fold_spread` default, monomorphized. -/
def default_fold_spread {T S : Type} (s : S) : TypedSpread T → FRes (S × TypedSpread T)
  | .mk array => do
    let (s1, array') ← default_fold_array_expression s array
    pure (s1, TypedSpread.mk array')
termination_by sp => sizeOf sp

/-- An expression-list `collect()` over `fold_expression`. -/
def default_fold_expressions {T S : Type} (s : S) :
    List (TypedExpression T) → FRes (S × List (TypedExpression T))
  | [] => pure (s, [])
  | e :: l => do
    let (s1, e') ← default_fold_expression s e
    let (s2, l') ← default_fold_expressions s1 l
    pure (s2, e' :: l')
termination_by l => sizeOf l

/-- The array-literal `collect()` over `fold_expression_or_spread`. -/
def default_fold_eos_list {T S : Type} (s : S) :
    List (TypedExpressionOrSpread T) → FRes (S × List (TypedExpressionOrSpread T))
  | [] => pure (s, [])
  | e :: l => do
    let (s1, e') ← default_fold_expression_or_spread s e
    let (s2, l') ← default_fold_eos_list s1 l
    pure (s2, e' :: l')
termination_by l => sizeOf l

/-- The generics `map(..).transpose()` `collect()` over
`fold_uint_expression`. -/
def default_fold_generics {T S : Type} (s : S) :
    List (Option (UExpression T)) → FRes (S × List (Option (UExpression T)))
  | [] => pure (s, [])
  | none :: l => do
    let (s1, l') ← default_fold_generics s l
    pure (s1, none :: l')
  | some g :: l => do
    let (s1, g') ← default_fold_uint_expression s g
    let (s2, l') ← default_fold_generics s1 l
    pure (s2, some g' :: l')
termination_by l => sizeOf l

end

/-- `fold_variable` default, monomorphized. -/
def default_fold_variable {T S : Type} (s : S) (v : Variable T) :
    FRes (S × Variable T) := do
  let (s1, id) ← default_fold_name s v.id
  let (s2, t) ← default_fold_type s1 v._type
  pure (s2, { id := id, _type := t })

/-- `fold_declaration_variable` default, monomorphized. -/
def default_fold_declaration_variable {S : Type} (s : S) (v : DeclarationVariable) :
    FRes (S × DeclarationVariable) := do
  let (s1, id) ← default_fold_name s v.id
  let (s2, t) ← default_fold_declaration_type s1 v._type
  pure (s2, { id := id, _type := t })

/-- `fold_parameter` default, monomorphized. -/
def default_fold_parameter {S : Type} (s : S) (p : DeclarationParameter) :
    FRes (S × DeclarationParameter) := do
  let (s1, id) ← default_fold_declaration_variable s p.id
  pure (s1, { id := id, «private» := p.«private» })

/-- `fold_assignee` default, monomorphized. -/
def default_fold_assignee {T S : Type} (s : S) :
    TypedAssignee T → FRes (S × TypedAssignee T)
  | .Identifier v => do
    let (s1, v') ← default_fold_variable s v
    pure (s1, .Identifier v')
  | .Select a index => do
    let (s1, a') ← default_fold_assignee s a
    let (s2, index') ← default_fold_uint_expression s1 index
    pure (s2, .Select a' index')
  | .Member a m => do
    let (s1, a') ← default_fold_assignee s a
    pure (s1, .Member a' m)

/-- `fold_expression_list` default, monomorphized. -/
def default_fold_expression_list {T S : Type} (s : S) :
    TypedExpressionList T → FRes (S × TypedExpressionList T)
  | .FunctionCall id generics arguments types => do
    let (s1, generics') ← default_fold_generics s generics
    let (s2, arguments') ← default_fold_expressions s1 arguments
    let (s3, types') ← foldListState default_fold_type s2 types
    pure (s3, .FunctionCall id generics' arguments' types')

mutual

/-- `fold_statement` default, monomorphized. -/
def default_fold_statement {T S : Type} (s : S) (st : TypedStatement T) :
    FRes (S × List (TypedStatement T)) := do
  let (s1, res) ← (match st with
    | .Return exprs => do
      let (s1, es) ← default_fold_expressions s exprs
      pure (s1, TypedStatement.Return es)
    | .Definition a e => do
      let (s1, a') ← default_fold_assignee s a
      let (s2, e') ← default_fold_expression s1 e
      pure (s2, TypedStatement.Definition a' e')
    | .Declaration v => do
      let (s1, v') ← default_fold_variable s v
      pure (s1, TypedStatement.Declaration v')
    | .Assertion e => do
      let (s1, e') ← default_fold_boolean_expression s e
      pure (s1, TypedStatement.Assertion e')
    | .For v lo hi statements => do
      let (s1, v') ← default_fold_variable s v
      let (s2, lo') ← default_fold_uint_expression s1 lo
      let (s3, hi') ← default_fold_uint_expression s2 hi
      let (s4, sss) ← default_fold_statements s3 statements
      pure (s4, TypedStatement.For v' lo' hi' sss.flatten)
    | .MultipleDefinition vars elist => do
      let (s1, vs) ← foldListState default_fold_assignee s vars
      let (s2, elist') ← default_fold_expression_list s1 elist
      pure (s2, TypedStatement.MultipleDefinition vs elist') :
    FRes (S × TypedStatement T))
  pure (s1, [res])
termination_by sizeOf st

/-- The statement-list `collect()` over the `Vec`-valued
`fold_statement`. -/
def default_fold_statements {T S : Type} (s : S) :
    List (TypedStatement T) → FRes (S × List (List (TypedStatement T)))
  | [] => pure (s, [])
  | st :: l => do
    let (s1, sts) ← default_fold_statement s st
    let (s2, l') ← default_fold_statements s1 l
    pure (s2, sts :: l')
termination_by l => sizeOf l

end

/-- `fold_function` default, monomorphized. -/
def default_fold_function {T S : Type} (s : S) (fn : TypedFunction T) :
    FRes (S × TypedFunction T) := do
  let (s1, arguments) ← foldListState default_fold_parameter s fn.arguments
  let (s2, sss) ← default_fold_statements s1 fn.statements
  pure (s2,
    { arguments := arguments, statements := sss.flatten, signature := fn.signature })

/-- `fold_function_symbol` default, monomorphized. -/
def default_fold_function_symbol {T S : Type} (s : S) :
    TypedFunctionSymbol T → FRes (S × TypedFunctionSymbol T)
  | .Here fn => do
    let (s1, fn') ← default_fold_function s fn
    pure (s1, .Here fn')
  | there => pure (s, there)

/-- `fold_module` default, monomorphized. -/
def default_fold_module {T S : Type} (s : S) (p : TypedModule T) :
    FRes (S × TypedModule T) := do
  let (s1, functions) ← foldListState
    (fun s' (kf : Nat × TypedFunctionSymbol T) => do
      let (s'', sym) ← default_fold_function_symbol s' kf.2
      pure (s'', (kf.1, sym))) s p.functions
  pure (s1, { functions := functions })

/-- `fold_program` default, monomorphized. -/
def default_fold_program {T S : Type} (s : S) (p : TypedProgram T) :
    FRes (S × TypedProgram T) := do
  let (s1, modules) ← foldListState
    (fun s' (km : Nat × TypedModule T) => do
      let (s'', m) ← default_fold_module s' km.2
      pure (s'', (km.1, m))) s p.modules
  pure (s1, { modules := modules, main := p.main })

/-- The no-override implementation of `ResultFolder<'ast, T>`: every record
field is the corresponding monomorphized default. -/
def defaultResultFolder {T S : Type} : ResultFolder T S where
  fold_program := default_fold_program
  fold_module := default_fold_module
  fold_function_symbol := default_fold_function_symbol
  fold_function := default_fold_function
  fold_parameter := default_fold_parameter
  fold_name := default_fold_name
  fold_variable := default_fold_variable
  fold_declaration_variable := default_fold_declaration_variable
  fold_type := default_fold_type
  fold_array_type := default_fold_array_type
  fold_struct_type := default_fold_struct_type
  fold_declaration_type := default_fold_declaration_type
  fold_assignee := default_fold_assignee
  fold_statement := default_fold_statement
  fold_expression_or_spread := default_fold_expression_or_spread
  fold_spread := default_fold_spread
  fold_expression := default_fold_expression
  fold_array_expression := default_fold_array_expression
  fold_struct_expression := default_fold_struct_expression
  fold_expression_list := default_fold_expression_list
  fold_int_expression := fun s e => default_fold_int_expression s e
  fold_field_expression := default_fold_field_expression
  fold_boolean_expression := default_fold_boolean_expression
  fold_uint_expression := default_fold_uint_expression
  fold_uint_expression_inner := default_fold_uint_expression_inner
  fold_array_expression_inner := default_fold_array_expression_inner
  fold_struct_expression_inner := default_fold_struct_expression_inner

/-! `int_free`: no untyped-integer-literal expression node occurs in any
position the default fold visits (the declared type of a struct expression
and the body referenced by a "There" symbol are not visited, so they are
not constrained). This is the well-formedness precondition under which the
no-override fold is the identity. -/

set_option maxHeartbeats 12800000 in
mutual

def int_free_type {T : Type} : GType T → Bool
  | .Array array_type => int_free_array_type array_type
  | .Struct struct_type => int_free_struct_type struct_type
  | _ => true
termination_by t => sizeOf t

def int_free_array_type {T : Type} : ArrayType T → Bool
  | .mk ty size => int_free_type ty && int_free_uint_expression size
termination_by t => sizeOf t

def int_free_struct_type {T : Type} : StructType T → Bool
  | .mk _ members => int_free_members members
termination_by t => sizeOf t

def int_free_members {T : Type} : List (StructMember T) → Bool
  | [] => true
  | .mk _ ty :: l => int_free_type ty && int_free_members l
termination_by l => sizeOf l

def int_free_uint_expression {T : Type} : UExpression T → Bool
  | .mk _ inner => int_free_uint_expression_inner inner
termination_by e => sizeOf e

def int_free_uint_expression_inner {T : Type} : UExpressionInner T → Bool
  | .Value _ => true
  | .Identifier _ => true
  | .Add l r => int_free_uint_expression l && int_free_uint_expression r
  | .Sub l r => int_free_uint_expression l && int_free_uint_expression r
  | .FloorSub l r => int_free_uint_expression l && int_free_uint_expression r
  | .Mult l r => int_free_uint_expression l && int_free_uint_expression r
  | .Div l r => int_free_uint_expression l && int_free_uint_expression r
  | .Rem l r => int_free_uint_expression l && int_free_uint_expression r
  | .Xor l r => int_free_uint_expression l && int_free_uint_expression r
  | .And l r => int_free_uint_expression l && int_free_uint_expression r
  | .Or l r => int_free_uint_expression l && int_free_uint_expression r
  | .LeftShift e b => int_free_uint_expression e && int_free_field_expression b
  | .RightShift e b => int_free_uint_expression e && int_free_field_expression b
  | .Not e => int_free_uint_expression e
  | .FunctionCall _ generics exps =>
    int_free_generics generics && int_free_expressions exps
  | .Select array index =>
    int_free_array_expression array && int_free_uint_expression index
  | .IfElse cond cons alt =>
    int_free_boolean_expression cond && int_free_uint_expression cons &&
      int_free_uint_expression alt
  | .Member st _ => int_free_struct_expression st
termination_by e => sizeOf e

def int_free_field_expression {T : Type} : FieldElementExpression T → Bool
  | .Number _ => true
  | .Identifier _ => true
  | .Add e1 e2 => int_free_field_expression e1 && int_free_field_expression e2
  | .Sub e1 e2 => int_free_field_expression e1 && int_free_field_expression e2
  | .Mult e1 e2 => int_free_field_expression e1 && int_free_field_expression e2
  | .Div e1 e2 => int_free_field_expression e1 && int_free_field_expression e2
  | .Pow e1 e2 => int_free_field_expression e1 && int_free_uint_expression e2
  | .IfElse cond cons alt =>
    int_free_boolean_expression cond && int_free_field_expression cons &&
      int_free_field_expression alt
  | .FunctionCall _ generics exps =>
    int_free_generics generics && int_free_expressions exps
  | .Member st _ => int_free_struct_expression st
  | .Select array index =>
    int_free_array_expression array && int_free_uint_expression index
termination_by e => sizeOf e

def int_free_boolean_expression {T : Type} : BooleanExpression T → Bool
  | .Value _ => true
  | .Identifier _ => true
  | .FieldEq e1 e2 => int_free_field_expression e1 && int_free_field_expression e2
  | .BoolEq e1 e2 => int_free_boolean_expression e1 && int_free_boolean_expression e2
  | .ArrayEq e1 e2 => int_free_array_expression e1 && int_free_array_expression e2
  | .StructEq e1 e2 => int_free_struct_expression e1 && int_free_struct_expression e2
  | .UintEq e1 e2 => int_free_uint_expression e1 && int_free_uint_expression e2
  | .FieldLt e1 e2 => int_free_field_expression e1 && int_free_field_expression e2
  | .FieldLe e1 e2 => int_free_field_expression e1 && int_free_field_expression e2
  | .FieldGt e1 e2 => int_free_field_expression e1 && int_free_field_expression e2
  | .FieldGe e1 e2 => int_free_field_expression e1 && int_free_field_expression e2
  | .UintLt e1 e2 => int_free_uint_expression e1 && int_free_uint_expression e2
  | .UintLe e1 e2 => int_free_uint_expression e1 && int_free_uint_expression e2
  | .UintGt e1 e2 => int_free_uint_expression e1 && int_free_uint_expression e2
  | .UintGe e1 e2 => int_free_uint_expression e1 && int_free_uint_expression e2
  | .Or e1 e2 => int_free_boolean_expression e1 && int_free_boolean_expression e2
  | .And e1 e2 => int_free_boolean_expression e1 && int_free_boolean_expression e2
  | .Not e => int_free_boolean_expression e
  | .FunctionCall _ generics exps =>
    int_free_generics generics && int_free_expressions exps
  | .IfElse cond cons alt =>
    int_free_boolean_expression cond && int_free_boolean_expression cons &&
      int_free_boolean_expression alt
  | .Member st _ => int_free_struct_expression st
  | .Select array index =>
    int_free_array_expression array && int_free_uint_expression index
termination_by e => sizeOf e

def int_free_array_expression {T : Type} : ArrayExpression T → Bool
  | .mk ty inner => int_free_array_type ty && int_free_array_expression_inner inner
termination_by e => sizeOf e

def int_free_array_expression_inner {T : Type} : ArrayExpressionInner T → Bool
  | .Identifier _ => true
  | .Value exprs => int_free_eos_list exprs
  | .FunctionCall _ generics exps =>
    int_free_generics generics && int_free_expressions exps
  | .IfElse cond cons alt =>
    int_free_boolean_expression cond && int_free_array_expression cons &&
      int_free_array_expression alt
  | .Member st _ => int_free_struct_expression st
  | .Select array index =>
    int_free_array_expression array && int_free_uint_expression index
  | .Slice array lo hi =>
    int_free_array_expression array && int_free_uint_expression lo &&
      int_free_uint_expression hi
  | .Repeat e count => int_free_expression e && int_free_uint_expression count
termination_by e => sizeOf e

def int_free_struct_expression {T : Type} : StructExpression T → Bool
  | .mk _ inner => int_free_struct_expression_inner inner
termination_by e => sizeOf e

def int_free_struct_expression_inner {T : Type} : StructExpressionInner T → Bool
  | .Identifier _ => true
  | .Value exprs => int_free_expressions exprs
  | .FunctionCall _ generics exps =>
    int_free_generics generics && int_free_expressions exps
  | .IfElse cond cons alt =>
    int_free_boolean_expression cond && int_free_struct_expression cons &&
      int_free_struct_expression alt
  | .Member st _ => int_free_struct_expression st
  | .Select array index =>
    int_free_array_expression array && int_free_uint_expression index
termination_by e => sizeOf e

def int_free_expression {T : Type} : TypedExpression T → Bool
  | .FieldElement e => int_free_field_expression e
  | .Boolean e => int_free_boolean_expression e
  | .Uint e => int_free_uint_expression e
  | .Array e => int_free_array_expression e
  | .Struct e => int_free_struct_expression e
  | .Int _ => false
termination_by e => sizeOf e

def int_free_eos {T : Type} : TypedExpressionOrSpread T → Bool
  | .Expression e => int_free_expression e
  | .Spread sp => int_free_spread sp
termination_by e => sizeOf e

def int_free_spread {T : Type} : TypedSpread T → Bool
  | .mk array => int_free_array_expression array
termination_by sp => sizeOf sp

def int_free_expressions {T : Type} : List (TypedExpression T) → Bool
  | [] => true
  | e :: l => int_free_expression e && int_free_expressions l
termination_by l => sizeOf l

def int_free_eos_list {T : Type} : List (TypedExpressionOrSpread T) → Bool
  | [] => true
  | e :: l => int_free_eos e && int_free_eos_list l
termination_by l => sizeOf l

def int_free_generics {T : Type} : List (Option (UExpression T)) → Bool
  | [] => true
  | none :: l => int_free_generics l
  | some g :: l => int_free_uint_expression g && int_free_generics l
termination_by l => sizeOf l

end

def int_free_variable {T : Type} (v : Variable T) : Bool :=
  int_free_type v._type

def int_free_assignee {T : Type} : TypedAssignee T → Bool
  | .Identifier v => int_free_variable v
  | .Select a index => int_free_assignee a && int_free_uint_expression index
  | .Member a _ => int_free_assignee a

def int_free_assignees {T : Type} : List (TypedAssignee T) → Bool
  | [] => true
  | a :: l => int_free_assignee a && int_free_assignees l

def int_free_types {T : Type} : List (GType T) → Bool
  | [] => true
  | t :: l => int_free_type t && int_free_types l

def int_free_expression_list {T : Type} : TypedExpressionList T → Bool
  | .FunctionCall _ generics arguments types =>
    int_free_generics generics && int_free_expressions arguments &&
      int_free_types types

mutual

def int_free_statement {T : Type} : TypedStatement T → Bool
  | .Return exprs => int_free_expressions exprs
  | .Definition a e => int_free_assignee a && int_free_expression e
  | .Declaration v => int_free_variable v
  | .Assertion e => int_free_boolean_expression e
  | .For v lo hi statements =>
    int_free_variable v && int_free_uint_expression lo &&
      int_free_uint_expression hi && int_free_statements statements
  | .MultipleDefinition vars elist =>
    int_free_assignees vars && int_free_expression_list elist
termination_by st => sizeOf st

def int_free_statements {T : Type} : List (TypedStatement T) → Bool
  | [] => true
  | st :: l => int_free_statement st && int_free_statements l
termination_by l => sizeOf l

end

def int_free_function {T : Type} (fn : TypedFunction T) : Bool :=
  int_free_statements fn.statements

def int_free_function_symbol {T : Type} : TypedFunctionSymbol T → Bool
  | .Here fn => int_free_function fn
  | .There _ _ => true

def int_free_symbols {T : Type} : List (Nat × TypedFunctionSymbol T) → Bool
  | [] => true
  | kf :: l => int_free_function_symbol kf.2 && int_free_symbols l

def int_free_module {T : Type} (m : TypedModule T) : Bool :=
  int_free_symbols m.functions

def int_free_modules {T : Type} : List (Nat × TypedModule T) → Bool
  | [] => true
  | km :: l => int_free_module km.2 && int_free_modules l

def int_free_program {T : Type} (p : TypedProgram T) : Bool :=
  int_free_modules p.modules

end TypedAbsy

/-! Concrete instances used by the verification (pass stand-ins with marked
overrides, and small programs). -/

namespace Examples

/-- A stand-in canonicalizer whose `fold_argument` override visibly marks
each argument it touches (bumps the wire id): it witnesses which pass
slots of `optimize` have their `fold_argument` consulted. -/
def bumpArgumentFolder : Ir.Folder Unit Unit :=
  { Ir.defaultFolder with
    fold_argument := fun s a => (s, { id := a.id + 1, «private» := a.«private» }) }

/-- A one-argument, no-statement streaming program. -/
def progIterEx : Ir.ProgIterator Unit :=
  { arguments := [{ id := 0, «private» := false }], statements := [], return_count := 1 }

/-- A small flattened program with one constraint and one directive. -/
def progEx : Ir.Prog Unit :=
  { arguments := [{ id := 0, «private» := true }]
    statements :=
      [.Constraint ⟨⟨[(0, ())]⟩, ⟨[(1, ())]⟩⟩ ⟨[(2, ())]⟩ (some 9),
       .Directive ⟨[⟨⟨[(0, ())]⟩, ⟨[(1, ())]⟩⟩], [3], 4⟩]
    returns := [2] }

/-- A `ResultFolder` whose `fold_struct_type` override visibly marks the
struct types it folds (bumps the opaque canonical id) and whose
`fold_struct_expression_inner` is the successful identity. -/
def bumpStructTypeFolder : TypedAbsy.ResultFolder Unit Unit :=
  { TypedAbsy.defaultResultFolder with
    fold_struct_type := fun s t => pure (s, .mk (t.canonical + 1) t.members)
    fold_struct_expression_inner := fun s _ty e => pure (s, e) }

/-- A struct expression whose declared type has canonical id 0. -/
def structExprEx : TypedAbsy.StructExpression Unit := .mk (.mk 0 []) (.Identifier 0)

/-- An array expression: `bool[2]` identifier. -/
def arrayExprEx : TypedAbsy.ArrayExpression Unit :=
  .mk (.mk .Boolean (.mk 32 (.Value 2))) (.Identifier 3)

/-- A `ResultFolder` failing with a distinct compile error at each of four
override sites, used to witness fail-fast propagation. -/
def failFolder : TypedAbsy.ResultFolder Unit Unit :=
  { TypedAbsy.defaultResultFolder with
    fold_parameter := fun _ _ => .error (.CompileError ⟨1⟩)
    fold_statement := fun _ _ => .error (.CompileError ⟨2⟩)
    fold_function_symbol := fun _ _ => .error (.CompileError ⟨3⟩)
    fold_module := fun _ _ => .error (.CompileError ⟨4⟩) }

/-- A typed program whose main module holds one locally defined function
whose body contains a residual untyped integer literal. -/
def intProgram : TypedAbsy.TypedProgram Unit :=
  { modules :=
      [(0, { functions :=
        [(0, .Here { arguments := []
                     statements := [.Return [.Int (.Value 0)]]
                     signature := 0 })] })]
    main := 0 }

/-- A small well-formed (int-free) typed program with a Here function, a
There symbol, a parameter and two statements. -/
def wfProgram : TypedAbsy.TypedProgram Unit :=
  { modules :=
      [(0, { functions :=
        [(0, .Here { arguments := [{ id := { id := 0, _type := 0 }, «private» := true }]
                     statements := [.Return [.Boolean (.Value true)],
                       .Declaration { id := 1, _type := .FieldElement }]
                     signature := 0 }),
         (1, .There 5 2)] })]
    main := 0 }

/-- The empty typed program with main module id 3. -/
def emptyProgram : TypedAbsy.TypedProgram Unit := { modules := [], main := 3 }

end Examples

-- ======================================================================
-- Theorems
-- ======================================================================

theorem mapState_nil {S α β : Type} (f : S → α → S × β) (s : S) :
    mapState f s [] = (s, []) := rfl

theorem mapState_cons {S α β : Type} (f : S → α → S × β) (s : S) (a : α) (l : List α) :
    mapState f s (a :: l) =
      ((mapState f (f s a).1 l).1, (f s a).2 :: (mapState f (f s a).1 l).2) := rfl

/-- A state-threaded map by a function that does not touch the state is an
ordinary `List.map`. -/
theorem mapState_pure {S α β : Type} (g : α → β) (s : S) (l : List α) :
    mapState (fun (s' : S) (a : α) => (s', g a)) s l = (s, l.map g) := by
  induction l with
  | nil => rfl
  | cons a l ih => simp [mapState, ih]

theorem mapState_id {S α : Type} {f : S → α → S × α} (s : S) (l : List α)
    (h : ∀ s' a, f s' a = (s', a)) :
    mapState f s l = (s, l) := by
  induction l generalizing s with
  | nil => rfl
  | cons a l ih => simp [mapState, h, ih]

theorem mapState_length {S α β : Type} (f : S → α → S × β) (s : S) (l : List α) :
    ((mapState f s l).2).length = l.length := by
  induction l generalizing s with
  | nil => rfl
  | cons a l ih => simp [mapState, ih]

/-- If each output of `f` agrees with its input on an observation `g`, a
state-threaded map preserves the list of observations. -/
theorem mapState_map_invariant {S α β : Type} {f : S → α → S × α} (g : α → β)
    (s : S) (l : List α) (h : ∀ s' a, g ((f s' a).2) = g a) :
    ((mapState f s l).2).map g = l.map g := by
  induction l generalizing s with
  | nil => rfl
  | cons a l ih => simp [mapState, ih, h]

theorem flatMapState_congr_singleton {S α : Type} {f : S → α → S × List α} (s : S)
    (l : List α) (h : ∀ s' a, a ∈ l → f s' a = (s', [a])) :
    flatMapState f s l = (s, l) := by
  induction l generalizing s with
  | nil => rfl
  | cons a l ih =>
    have ha := h s a (List.mem_cons_self a l)
    have hl := ih s (fun s' x hx => h s' x (List.mem_cons_of_mem a hx))
    simp [flatMapState, ha, hl]

namespace Ir

/-! Coherence of `implWithVariable` with the source defaults: each field of
the record other than `fold_variable` is the corresponding free default
dispatching into the record itself, certifying that `implWithVariable fv`
models the trait impl that overrides only `fold_variable`. -/

theorem implWithVariable_variable {T S : Type} (fv : S → FlatVariable → S × FlatVariable) :
    (implWithVariable (T := T) fv).fold_variable = fv := rfl

theorem implWithVariable_linear {T S : Type} (fv : S → FlatVariable → S × FlatVariable) :
    (implWithVariable (T := T) fv).fold_linear_combination =
      fold_linear_combination (implWithVariable fv) := rfl

theorem implWithVariable_quadratic {T S : Type} (fv : S → FlatVariable → S × FlatVariable) :
    (implWithVariable (T := T) fv).fold_quadratic_combination =
      fold_quadratic_combination (implWithVariable fv) := rfl

theorem implWithVariable_directive {T S : Type} (fv : S → FlatVariable → S × FlatVariable) :
    (implWithVariable (T := T) fv).fold_directive =
      fold_directive (implWithVariable fv) := rfl

theorem implWithVariable_argument {T S : Type} (fv : S → FlatVariable → S × FlatVariable) :
    (implWithVariable (T := T) fv).fold_argument =
      fold_argument (implWithVariable (T := T) fv) := rfl

theorem implWithVariable_statement {T S : Type} (fv : S → FlatVariable → S × FlatVariable) :
    (implWithVariable (T := T) fv).fold_statement =
      fold_statement (implWithVariable fv) := by
  funext s st
  cases st <;> rfl

theorem implWithVariable_module {T S : Type} (fv : S → FlatVariable → S × FlatVariable) :
    (implWithVariable (T := T) fv).fold_module =
      fold_module (implWithVariable fv) := rfl

theorem defaultFolder_variable_id {T S : Type} (s : S) (v : FlatVariable) :
    (defaultFolder (T := T)).fold_variable s v = (s, v) := rfl

/-! Behaviour of the source defaults over a folder whose relevant
sub-operations act as identities, and the resulting identity behaviour of
the no-override folder. -/

theorem fold_linear_combination_congr_id {T S : Type} {f : Folder T S}
    (h : ∀ s v, f.fold_variable s v = (s, v)) (s : S) (e : LinComb T) :
    fold_linear_combination f s e = (s, e) := by
  simp [fold_linear_combination, mapState_id, h]

theorem fold_quadratic_combination_congr_id {T S : Type} {f : Folder T S}
    (h : ∀ s e, f.fold_linear_combination s e = (s, e)) (s : S) (e : QuadComb T) :
    fold_quadratic_combination f s e = (s, e) := by
  simp [fold_quadratic_combination, h]

theorem fold_directive_congr_id {T S : Type} {f : Folder T S}
    (hq : ∀ s e, f.fold_quadratic_combination s e = (s, e))
    (hv : ∀ s v, f.fold_variable s v = (s, v)) (s : S) (d : Directive T) :
    fold_directive f s d = (s, d) := by
  simp [fold_directive, mapState_id, hq, hv]

theorem fold_argument_congr_id {T S : Type} {f : Folder T S}
    (hv : ∀ s v, f.fold_variable s v = (s, v)) (s : S) (a : FlatParameter) :
    fold_argument f s a = (s, a) := by
  simp [fold_argument, hv]

theorem fold_statement_congr_singleton {T S : Type} {f : Folder T S}
    (hq : ∀ s e, f.fold_quadratic_combination s e = (s, e))
    (hl : ∀ s e, f.fold_linear_combination s e = (s, e))
    (hd : ∀ s d, f.fold_directive s d = (s, d)) (s : S) (st : Statement T) :
    fold_statement f s st = (s, [st]) := by
  cases st <;> simp [fold_statement, hq, hl, hd]

theorem fold_module_congr_id {T S : Type} {f : Folder T S}
    (ha : ∀ s a, f.fold_argument s a = (s, a))
    (hs : ∀ s st, f.fold_statement s st = (s, [st]))
    (hv : ∀ s v, f.fold_variable s v = (s, v)) (s : S) (p : Prog T) :
    fold_module f s p = (s, p) := by
  simp [fold_module, mapState_id, flatMapState_congr_singleton, ha, hs, hv]

theorem defaultFolder_linear_id {T S : Type} (s : S) (e : LinComb T) :
    (defaultFolder (T := T) (S := S)).fold_linear_combination s e = (s, e) :=
  fold_linear_combination_congr_id (f := defaultFolder) (fun _ _ => rfl) s e

theorem defaultFolder_quadratic_id {T S : Type} (s : S) (e : QuadComb T) :
    (defaultFolder (T := T) (S := S)).fold_quadratic_combination s e = (s, e) :=
  fold_quadratic_combination_congr_id defaultFolder_linear_id s e

theorem defaultFolder_directive_id {T S : Type} (s : S) (d : Directive T) :
    (defaultFolder (T := T) (S := S)).fold_directive s d = (s, d) :=
  fold_directive_congr_id defaultFolder_quadratic_id (fun _ _ => rfl) s d

theorem defaultFolder_argument_id {T S : Type} (s : S) (a : FlatParameter) :
    (defaultFolder (T := T) (S := S)).fold_argument s a = (s, a) :=
  fold_argument_congr_id (T := T) (f := defaultFolder) (fun _ _ => rfl) s a

theorem defaultFolder_statement_id {T S : Type} (s : S) (st : Statement T) :
    (defaultFolder (T := T) (S := S)).fold_statement s st = (s, [st]) :=
  fold_statement_congr_singleton defaultFolder_quadratic_id defaultFolder_linear_id
    defaultFolder_directive_id s st

theorem fold_module_default_id {T S : Type} (s : S) (p : Prog T) :
    fold_module (defaultFolder (T := T) (S := S)) s p = (s, p) :=
  fold_module_congr_id (f := defaultFolder) defaultFolder_argument_id
    defaultFolder_statement_id (fun _ _ => rfl) s p

end Ir

namespace TypedAbsy

theorem foldListState_nil {S α β : Type} (f : S → α → FRes (S × β)) (s : S) :
    foldListState f s [] = .ok (s, []) := rfl

theorem foldListState_cons_ok {S α β : Type} {f : S → α → FRes (S × β)} {s s1 s2 : S}
    {a : α} {b : β} {l : List α} {bs : List β}
    (h : f s a = .ok (s1, b)) (h2 : foldListState f s1 l = .ok (s2, bs)) :
    foldListState f s (a :: l) = .ok (s2, b :: bs) := by
  simp [foldListState, h, h2, Bind.bind, Except.bind, pure, Except.pure]

theorem foldListState_cons_err {S α β : Type} {f : S → α → FRes (S × β)} {s : S}
    {a : α} {l : List α} {e : Failure} (h : f s a = .error e) :
    foldListState f s (a :: l) = .error e := by
  simp [foldListState, h, Bind.bind, Except.bind]

/-- A fallible state-threaded map of a pointwise-identity operation is the
successful identity. -/
theorem foldListState_id {S α : Type} {f : S → α → FRes (S × α)} {l : List α} (s : S)
    (h : ∀ s' a, a ∈ l → f s' a = .ok (s', a)) :
    foldListState f s l = .ok (s, l) := by
  induction l generalizing s with
  | nil => rfl
  | cons a l ih =>
    have ha := h s a (List.mem_cons_self a l)
    have hl := ih s (fun s' x hx => h s' x (List.mem_cons_of_mem a hx))
    exact foldListState_cons_ok ha hl

/-- Fail-fast: if every element of a prefix folds successfully and the next
element fails, the whole fold returns exactly that error, whatever follows
the failing element. -/
theorem foldListState_prefix_err {S α β : Type} {f : S → α → FRes (S × β)} {s s1 : S}
    {l1 : List α} {bs : List β} {x : α} {e : Failure}
    (h1 : foldListState f s l1 = .ok (s1, bs)) (hx : f s1 x = .error e) (l2 : List α) :
    foldListState f s (l1 ++ x :: l2) = .error e := by
  induction l1 generalizing s bs with
  | nil =>
    simp only [foldListState_nil, Except.ok.injEq, Prod.mk.injEq] at h1
    obtain ⟨rfl, rfl⟩ := h1
    simpa using foldListState_cons_err hx
  | cons a l1 ih =>
    rw [List.cons_append]
    cases hfa : f s a with
    | error e' => rw [foldListState_cons_err hfa] at h1; cases h1
    | ok sb =>
      obtain ⟨sa, b⟩ := sb
      simp only [foldListState, hfa, Bind.bind, Except.bind] at h1 ⊢
      cases hrest : foldListState f sa l1 with
      | error e' => rw [hrest] at h1; cases h1
      | ok r =>
        rw [hrest] at h1
        obtain ⟨s2, bs'⟩ := r
        simp only [pure, Except.pure, Except.ok.injEq, Prod.mk.injEq] at h1
        obtain ⟨rfl, rfl⟩ := h1.1
        rw [ih hrest]

theorem flatten_map_singleton {α : Type} (l : List α) :
    (l.map (fun a => [a])).flatten = l := by
  induction l with
  | nil => rfl
  | cons a l ih => simp [ih]

/-! Identity of the monomorphized defaults on `int_free` input, by the same
mutual recursion as the defaults themselves. -/

theorem default_fold_name_id {S : Type} (s : S) (n : Identifier) :
    default_fold_name s n = .ok (s, n) := rfl

theorem default_fold_declaration_type_id {S : Type} (s : S) (t : DeclarationType) :
    default_fold_declaration_type s t = .ok (s, t) := rfl

set_option maxHeartbeats 12800000 in
mutual

theorem default_fold_type_id {T S : Type} (s : S) (t : GType T)
    (h : int_free_type t = true) :
    default_fold_type s t = .ok (s, t) := by
  cases t with
  | Array array_type =>
    simp only [int_free_type] at h
    simp [default_fold_type, default_fold_array_type_id s array_type h,
      Bind.bind, Except.bind, pure, Except.pure]
  | Struct struct_type =>
    simp only [int_free_type] at h
    simp [default_fold_type, default_fold_struct_type_id s struct_type h,
      Bind.bind, Except.bind, pure, Except.pure]
  | FieldElement => simp [default_fold_type, pure, Except.pure]
  | Boolean => simp [default_fold_type, pure, Except.pure]
  | Uint bw => simp [default_fold_type, pure, Except.pure]
  | Int => simp [default_fold_type, pure, Except.pure]
termination_by sizeOf t

theorem default_fold_array_type_id {T S : Type} (s : S) (t : ArrayType T)
    (h : int_free_array_type t = true) :
    default_fold_array_type s t = .ok (s, t) := by
  cases t with
  | mk ty size =>
    simp only [int_free_array_type, Bool.and_eq_true] at h
    simp [default_fold_array_type, default_fold_type_id s ty h.1,
      default_fold_uint_expression_id s size h.2,
      Bind.bind, Except.bind, pure, Except.pure]
termination_by sizeOf t

theorem default_fold_struct_type_id {T S : Type} (s : S) (t : StructType T)
    (h : int_free_struct_type t = true) :
    default_fold_struct_type s t = .ok (s, t) := by
  cases t with
  | mk canonical members =>
    simp only [int_free_struct_type] at h
    simp [default_fold_struct_type, default_fold_struct_members_id s members h,
      Bind.bind, Except.bind, pure, Except.pure]
termination_by sizeOf t

theorem default_fold_struct_members_id {T S : Type} (s : S) (l : List (StructMember T))
    (h : int_free_members l = true) :
    default_fold_struct_members s l = .ok (s, l) := by
  match l with
  | [] => simp [default_fold_struct_members, pure, Except.pure]
  | .mk id ty :: l =>
    simp only [int_free_members, Bool.and_eq_true] at h
    simp [default_fold_struct_members, default_fold_type_id s ty h.1,
      default_fold_struct_members_id s l h.2,
      Bind.bind, Except.bind, pure, Except.pure]
termination_by sizeOf l

theorem default_fold_uint_expression_id {T S : Type} (s : S) (e : UExpression T)
    (h : int_free_uint_expression e = true) :
    default_fold_uint_expression s e = .ok (s, e) := by
  cases e with
  | mk bitwidth inner =>
    simp only [int_free_uint_expression] at h
    simp [default_fold_uint_expression,
      default_fold_uint_expression_inner_id s bitwidth inner h,
      Bind.bind, Except.bind, pure, Except.pure]
termination_by sizeOf e

theorem default_fold_uint_expression_inner_id {T S : Type} (s : S) (bw : UBitwidth)
    (e : UExpressionInner T) (h : int_free_uint_expression_inner e = true) :
    default_fold_uint_expression_inner s bw e = .ok (s, e) := by
  cases e with
  | Value v => simp [default_fold_uint_expression_inner, pure, Except.pure]
  | Identifier id =>
    simp [default_fold_uint_expression_inner, default_fold_name,
      Bind.bind, Except.bind, pure, Except.pure]
  | Add l r =>
    simp only [int_free_uint_expression_inner, Bool.and_eq_true] at h
    simp [default_fold_uint_expression_inner,
      default_fold_uint_expression_id s l h.1,
      default_fold_uint_expression_id s r h.2,
      Bind.bind, Except.bind, pure, Except.pure]
  | Sub l r =>
    simp only [int_free_uint_expression_inner, Bool.and_eq_true] at h
    simp [default_fold_uint_expression_inner,
      default_fold_uint_expression_id s l h.1,
      default_fold_uint_expression_id s r h.2,
      Bind.bind, Except.bind, pure, Except.pure]
  | FloorSub l r =>
    simp only [int_free_uint_expression_inner, Bool.and_eq_true] at h
    simp [default_fold_uint_expression_inner,
      default_fold_uint_expression_id s l h.1,
      default_fold_uint_expression_id s r h.2,
      Bind.bind, Except.bind, pure, Except.pure]
  | Mult l r =>
    simp only [int_free_uint_expression_inner, Bool.and_eq_true] at h
    simp [default_fold_uint_expression_inner,
      default_fold_uint_expression_id s l h.1,
      default_fold_uint_expression_id s r h.2,
      Bind.bind, Except.bind, pure, Except.pure]
  | Div l r =>
    simp only [int_free_uint_expression_inner, Bool.and_eq_true] at h
    simp [default_fold_uint_expression_inner,
      default_fold_uint_expression_id s l h.1,
      default_fold_uint_expression_id s r h.2,
      Bind.bind, Except.bind, pure, Except.pure]
  | Rem l r =>
    simp only [int_free_uint_expression_inner, Bool.and_eq_true] at h
    simp [default_fold_uint_expression_inner,
      default_fold_uint_expression_id s l h.1,
      default_fold_uint_expression_id s r h.2,
      Bind.bind, Except.bind, pure, Except.pure]
  | Xor l r =>
    simp only [int_free_uint_expression_inner, Bool.and_eq_true] at h
    simp [default_fold_uint_expression_inner,
      default_fold_uint_expression_id s l h.1,
      default_fold_uint_expression_id s r h.2,
      Bind.bind, Except.bind, pure, Except.pure]
  | And l r =>
    simp only [int_free_uint_expression_inner, Bool.and_eq_true] at h
    simp [default_fold_uint_expression_inner,
      default_fold_uint_expression_id s l h.1,
      default_fold_uint_expression_id s r h.2,
      Bind.bind, Except.bind, pure, Except.pure]
  | Or l r =>
    simp only [int_free_uint_expression_inner, Bool.and_eq_true] at h
    simp [default_fold_uint_expression_inner,
      default_fold_uint_expression_id s l h.1,
      default_fold_uint_expression_id s r h.2,
      Bind.bind, Except.bind, pure, Except.pure]
  | LeftShift e b =>
    simp only [int_free_uint_expression_inner, Bool.and_eq_true] at h
    simp [default_fold_uint_expression_inner,
      default_fold_uint_expression_id s e h.1,
      default_fold_field_expression_id s b h.2,
      Bind.bind, Except.bind, pure, Except.pure]
  | RightShift e b =>
    simp only [int_free_uint_expression_inner, Bool.and_eq_true] at h
    simp [default_fold_uint_expression_inner,
      default_fold_uint_expression_id s e h.1,
      default_fold_field_expression_id s b h.2,
      Bind.bind, Except.bind, pure, Except.pure]
  | Not e =>
    simp only [int_free_uint_expression_inner] at h
    simp [default_fold_uint_expression_inner,
      default_fold_uint_expression_id s e h,
      Bind.bind, Except.bind, pure, Except.pure]
  | FunctionCall key generics exps =>
    simp only [int_free_uint_expression_inner, Bool.and_eq_true] at h
    simp [default_fold_uint_expression_inner,
      default_fold_generics_id s generics h.1,
      default_fold_expressions_id s exps h.2,
      Bind.bind, Except.bind, pure, Except.pure]
  | Select array index =>
    simp only [int_free_uint_expression_inner, Bool.and_eq_true] at h
    simp [default_fold_uint_expression_inner,
      default_fold_array_expression_id s array h.1,
      default_fold_uint_expression_id s index h.2,
      Bind.bind, Except.bind, pure, Except.pure]
  | IfElse cond cons alt =>
    simp only [int_free_uint_expression_inner, Bool.and_eq_true] at h
    simp [default_fold_uint_expression_inner,
      default_fold_boolean_expression_id s cond h.1.1,
      default_fold_uint_expression_id s cons h.1.2,
      default_fold_uint_expression_id s alt h.2,
      Bind.bind, Except.bind, pure, Except.pure]
  | Member st id =>
    simp only [int_free_uint_expression_inner] at h
    simp [default_fold_uint_expression_inner,
      default_fold_struct_expression_id s st h,
      Bind.bind, Except.bind, pure, Except.pure]
termination_by sizeOf e

theorem default_fold_field_expression_id {T S : Type} (s : S)
    (e : FieldElementExpression T) (h : int_free_field_expression e = true) :
    default_fold_field_expression s e = .ok (s, e) := by
  cases e with
  | Number n => simp [default_fold_field_expression, pure, Except.pure]
  | Identifier id =>
    simp [default_fold_field_expression, default_fold_name,
      Bind.bind, Except.bind, pure, Except.pure]
  | Add e1 e2 =>
    simp only [int_free_field_expression, Bool.and_eq_true] at h
    simp [default_fold_field_expression,
      default_fold_field_expression_id s e1 h.1,
      default_fold_field_expression_id s e2 h.2,
      Bind.bind, Except.bind, pure, Except.pure]
  | Sub e1 e2 =>
    simp only [int_free_field_expression, Bool.and_eq_true] at h
    simp [default_fold_field_expression,
      default_fold_field_expression_id s e1 h.1,
      default_fold_field_expression_id s e2 h.2,
      Bind.bind, Except.bind, pure, Except.pure]
  | Mult e1 e2 =>
    simp only [int_free_field_expression, Bool.and_eq_true] at h
    simp [default_fold_field_expression,
      default_fold_field_expression_id s e1 h.1,
      default_fold_field_expression_id s e2 h.2,
      Bind.bind, Except.bind, pure, Except.pure]
  | Div e1 e2 =>
    simp only [int_free_field_expression, Bool.and_eq_true] at h
    simp [default_fold_field_expression,
      default_fold_field_expression_id s e1 h.1,
      default_fold_field_expression_id s e2 h.2,
      Bind.bind, Except.bind, pure, Except.pure]
  | Pow e1 e2 =>
    simp only [int_free_field_expression, Bool.and_eq_true] at h
    simp [default_fold_field_expression,
      default_fold_field_expression_id s e1 h.1,
      default_fold_uint_expression_id s e2 h.2,
      Bind.bind, Except.bind, pure, Except.pure]
  | IfElse cond cons alt =>
    simp only [int_free_field_expression, Bool.and_eq_true] at h
    simp [default_fold_field_expression,
      default_fold_boolean_expression_id s cond h.1.1,
      default_fold_field_expression_id s cons h.1.2,
      default_fold_field_expression_id s alt h.2,
      Bind.bind, Except.bind, pure, Except.pure]
  | FunctionCall key generics exps =>
    simp only [int_free_field_expression, Bool.and_eq_true] at h
    simp [default_fold_field_expression,
      default_fold_generics_id s generics h.1,
      default_fold_expressions_id s exps h.2,
      Bind.bind, Except.bind, pure, Except.pure]
  | Member st id =>
    simp only [int_free_field_expression] at h
    simp [default_fold_field_expression,
      default_fold_struct_expression_id s st h,
      Bind.bind, Except.bind, pure, Except.pure]
  | Select array index =>
    simp only [int_free_field_expression, Bool.and_eq_true] at h
    simp [default_fold_field_expression,
      default_fold_array_expression_id s array h.1,
      default_fold_uint_expression_id s index h.2,
      Bind.bind, Except.bind, pure, Except.pure]
termination_by sizeOf e

theorem default_fold_boolean_expression_id {T S : Type} (s : S)
    (e : BooleanExpression T) (h : int_free_boolean_expression e = true) :
    default_fold_boolean_expression s e = .ok (s, e) := by
  cases e with
  | Value v => simp [default_fold_boolean_expression, pure, Except.pure]
  | Identifier id =>
    simp [default_fold_boolean_expression, default_fold_name,
      Bind.bind, Except.bind, pure, Except.pure]
  | FieldEq e1 e2 =>
    simp only [int_free_boolean_expression, Bool.and_eq_true] at h
    simp [default_fold_boolean_expression,
      default_fold_field_expression_id s e1 h.1,
      default_fold_field_expression_id s e2 h.2,
      Bind.bind, Except.bind, pure, Except.pure]
  | BoolEq e1 e2 =>
    simp only [int_free_boolean_expression, Bool.and_eq_true] at h
    simp [default_fold_boolean_expression,
      default_fold_boolean_expression_id s e1 h.1,
      default_fold_boolean_expression_id s e2 h.2,
      Bind.bind, Except.bind, pure, Except.pure]
  | ArrayEq e1 e2 =>
    simp only [int_free_boolean_expression, Bool.and_eq_true] at h
    simp [default_fold_boolean_expression,
      default_fold_array_expression_id s e1 h.1,
      default_fold_array_expression_id s e2 h.2,
      Bind.bind, Except.bind, pure, Except.pure]
  | StructEq e1 e2 =>
    simp only [int_free_boolean_expression, Bool.and_eq_true] at h
    simp [default_fold_boolean_expression,
      default_fold_struct_expression_id s e1 h.1,
      default_fold_struct_expression_id s e2 h.2,
      Bind.bind, Except.bind, pure, Except.pure]
  | UintEq e1 e2 =>
    simp only [int_free_boolean_expression, Bool.and_eq_true] at h
    simp [default_fold_boolean_expression,
      default_fold_uint_expression_id s e1 h.1,
      default_fold_uint_expression_id s e2 h.2,
      Bind.bind, Except.bind, pure, Except.pure]
  | FieldLt e1 e2 =>
    simp only [int_free_boolean_expression, Bool.and_eq_true] at h
    simp [default_fold_boolean_expression,
      default_fold_field_expression_id s e1 h.1,
      default_fold_field_expression_id s e2 h.2,
      Bind.bind, Except.bind, pure, Except.pure]
  | FieldLe e1 e2 =>
    simp only [int_free_boolean_expression, Bool.and_eq_true] at h
    simp [default_fold_boolean_expression,
      default_fold_field_expression_id s e1 h.1,
      default_fold_field_expression_id s e2 h.2,
      Bind.bind, Except.bind, pure, Except.pure]
  | FieldGt e1 e2 =>
    simp only [int_free_boolean_expression, Bool.and_eq_true] at h
    simp [default_fold_boolean_expression,
      default_fold_field_expression_id s e1 h.1,
      default_fold_field_expression_id s e2 h.2,
      Bind.bind, Except.bind, pure, Except.pure]
  | FieldGe e1 e2 =>
    simp only [int_free_boolean_expression, Bool.and_eq_true] at h
    simp [default_fold_boolean_expression,
      default_fold_field_expression_id s e1 h.1,
      default_fold_field_expression_id s e2 h.2,
      Bind.bind, Except.bind, pure, Except.pure]
  | UintLt e1 e2 =>
    simp only [int_free_boolean_expression, Bool.and_eq_true] at h
    simp [default_fold_boolean_expression,
      default_fold_uint_expression_id s e1 h.1,
      default_fold_uint_expression_id s e2 h.2,
      Bind.bind, Except.bind, pure, Except.pure]
  | UintLe e1 e2 =>
    simp only [int_free_boolean_expression, Bool.and_eq_true] at h
    simp [default_fold_boolean_expression,
      default_fold_uint_expression_id s e1 h.1,
      default_fold_uint_expression_id s e2 h.2,
      Bind.bind, Except.bind, pure, Except.pure]
  | UintGt e1 e2 =>
    simp only [int_free_boolean_expression, Bool.and_eq_true] at h
    simp [default_fold_boolean_expression,
      default_fold_uint_expression_id s e1 h.1,
      default_fold_uint_expression_id s e2 h.2,
      Bind.bind, Except.bind, pure, Except.pure]
  | UintGe e1 e2 =>
    simp only [int_free_boolean_expression, Bool.and_eq_true] at h
    simp [default_fold_boolean_expression,
      default_fold_uint_expression_id s e1 h.1,
      default_fold_uint_expression_id s e2 h.2,
      Bind.bind, Except.bind, pure, Except.pure]
  | Or e1 e2 =>
    simp only [int_free_boolean_expression, Bool.and_eq_true] at h
    simp [default_fold_boolean_expression,
      default_fold_boolean_expression_id s e1 h.1,
      default_fold_boolean_expression_id s e2 h.2,
      Bind.bind, Except.bind, pure, Except.pure]
  | And e1 e2 =>
    simp only [int_free_boolean_expression, Bool.and_eq_true] at h
    simp [default_fold_boolean_expression,
      default_fold_boolean_expression_id s e1 h.1,
      default_fold_boolean_expression_id s e2 h.2,
      Bind.bind, Except.bind, pure, Except.pure]
  | Not e =>
    simp only [int_free_boolean_expression] at h
    simp [default_fold_boolean_expression,
      default_fold_boolean_expression_id s e h,
      Bind.bind, Except.bind, pure, Except.pure]
  | FunctionCall key generics exps =>
    simp only [int_free_boolean_expression, Bool.and_eq_true] at h
    simp [default_fold_boolean_expression,
      default_fold_generics_id s generics h.1,
      default_fold_expressions_id s exps h.2,
      Bind.bind, Except.bind, pure, Except.pure]
  | IfElse cond cons alt =>
    simp only [int_free_boolean_expression, Bool.and_eq_true] at h
    simp [default_fold_boolean_expression,
      default_fold_boolean_expression_id s cond h.1.1,
      default_fold_boolean_expression_id s cons h.1.2,
      default_fold_boolean_expression_id s alt h.2,
      Bind.bind, Except.bind, pure, Except.pure]
  | Member st id =>
    simp only [int_free_boolean_expression] at h
    simp [default_fold_boolean_expression,
      default_fold_struct_expression_id s st h,
      Bind.bind, Except.bind, pure, Except.pure]
  | Select array index =>
    simp only [int_free_boolean_expression, Bool.and_eq_true] at h
    simp [default_fold_boolean_expression,
      default_fold_array_expression_id s array h.1,
      default_fold_uint_expression_id s index h.2,
      Bind.bind, Except.bind, pure, Except.pure]
termination_by sizeOf e

theorem default_fold_array_expression_id {T S : Type} (s : S) (e : ArrayExpression T)
    (h : int_free_array_expression e = true) :
    default_fold_array_expression s e = .ok (s, e) := by
  cases e with
  | mk ty inner =>
    simp only [int_free_array_expression, Bool.and_eq_true] at h
    simp [default_fold_array_expression,
      default_fold_array_type_id s ty h.1,
      default_fold_array_expression_inner_id s ty inner h.2,
      Bind.bind, Except.bind, pure, Except.pure]
termination_by sizeOf e

theorem default_fold_array_expression_inner_id {T S : Type} (s : S) (ty : ArrayType T)
    (e : ArrayExpressionInner T) (h : int_free_array_expression_inner e = true) :
    default_fold_array_expression_inner s ty e = .ok (s, e) := by
  cases e with
  | Identifier id =>
    simp [default_fold_array_expression_inner, default_fold_name,
      Bind.bind, Except.bind, pure, Except.pure]
  | Value exprs =>
    simp only [int_free_array_expression_inner] at h
    simp [default_fold_array_expression_inner,
      default_fold_eos_list_id s exprs h,
      Bind.bind, Except.bind, pure, Except.pure]
  | FunctionCall key generics exps =>
    simp only [int_free_array_expression_inner, Bool.and_eq_true] at h
    simp [default_fold_array_expression_inner,
      default_fold_generics_id s generics h.1,
      default_fold_expressions_id s exps h.2,
      Bind.bind, Except.bind, pure, Except.pure]
  | IfElse cond cons alt =>
    simp only [int_free_array_expression_inner, Bool.and_eq_true] at h
    simp [default_fold_array_expression_inner,
      default_fold_boolean_expression_id s cond h.1.1,
      default_fold_array_expression_id s cons h.1.2,
      default_fold_array_expression_id s alt h.2,
      Bind.bind, Except.bind, pure, Except.pure]
  | Member st id =>
    simp only [int_free_array_expression_inner] at h
    simp [default_fold_array_expression_inner,
      default_fold_struct_expression_id s st h,
      Bind.bind, Except.bind, pure, Except.pure]
  | Select array index =>
    simp only [int_free_array_expression_inner, Bool.and_eq_true] at h
    simp [default_fold_array_expression_inner,
      default_fold_array_expression_id s array h.1,
      default_fold_uint_expression_id s index h.2,
      Bind.bind, Except.bind, pure, Except.pure]
  | Slice array lo hi =>
    simp only [int_free_array_expression_inner, Bool.and_eq_true] at h
    simp [default_fold_array_expression_inner,
      default_fold_array_expression_id s array h.1.1,
      default_fold_uint_expression_id s lo h.1.2,
      default_fold_uint_expression_id s hi h.2,
      Bind.bind, Except.bind, pure, Except.pure]
  | Repeat e count =>
    simp only [int_free_array_expression_inner, Bool.and_eq_true] at h
    simp [default_fold_array_expression_inner,
      default_fold_expression_id s e h.1,
      default_fold_uint_expression_id s count h.2,
      Bind.bind, Except.bind, pure, Except.pure]
termination_by sizeOf e

theorem default_fold_struct_expression_id {T S : Type} (s : S) (e : StructExpression T)
    (h : int_free_struct_expression e = true) :
    default_fold_struct_expression s e = .ok (s, e) := by
  cases e with
  | mk ty inner =>
    simp only [int_free_struct_expression] at h
    simp [default_fold_struct_expression,
      default_fold_struct_expression_inner_id s ty inner h,
      Bind.bind, Except.bind, pure, Except.pure]
termination_by sizeOf e

theorem default_fold_struct_expression_inner_id {T S : Type} (s : S)
    (ty : StructType T) (e : StructExpressionInner T)
    (h : int_free_struct_expression_inner e = true) :
    default_fold_struct_expression_inner s ty e = .ok (s, e) := by
  cases e with
  | Identifier id =>
    simp [default_fold_struct_expression_inner, default_fold_name,
      Bind.bind, Except.bind, pure, Except.pure]
  | Value exprs =>
    simp only [int_free_struct_expression_inner] at h
    simp [default_fold_struct_expression_inner,
      default_fold_expressions_id s exprs h,
      Bind.bind, Except.bind, pure, Except.pure]
  | FunctionCall key generics exps =>
    simp only [int_free_struct_expression_inner, Bool.and_eq_true] at h
    simp [default_fold_struct_expression_inner,
      default_fold_generics_id s generics h.1,
      default_fold_expressions_id s exps h.2,
      Bind.bind, Except.bind, pure, Except.pure]
  | IfElse cond cons alt =>
    simp only [int_free_struct_expression_inner, Bool.and_eq_true] at h
    simp [default_fold_struct_expression_inner,
      default_fold_boolean_expression_id s cond h.1.1,
      default_fold_struct_expression_id s cons h.1.2,
      default_fold_struct_expression_id s alt h.2,
      Bind.bind, Except.bind, pure, Except.pure]
  | Member st id =>
    simp only [int_free_struct_expression_inner] at h
    simp [default_fold_struct_expression_inner,
      default_fold_struct_expression_id s st h,
      Bind.bind, Except.bind, pure, Except.pure]
  | Select array index =>
    simp only [int_free_struct_expression_inner, Bool.and_eq_true] at h
    simp [default_fold_struct_expression_inner,
      default_fold_array_expression_id s array h.1,
      default_fold_uint_expression_id s index h.2,
      Bind.bind, Except.bind, pure, Except.pure]
termination_by sizeOf e

theorem default_fold_expression_id {T S : Type} (s : S) (e : TypedExpression T)
    (h : int_free_expression e = true) :
    default_fold_expression s e = .ok (s, e) := by
  cases e with
  | FieldElement e =>
    simp only [int_free_expression] at h
    simp [default_fold_expression, default_fold_field_expression_id s e h,
      Bind.bind, Except.bind, pure, Except.pure]
  | Boolean e =>
    simp only [int_free_expression] at h
    simp [default_fold_expression, default_fold_boolean_expression_id s e h,
      Bind.bind, Except.bind, pure, Except.pure]
  | Uint e =>
    simp only [int_free_expression] at h
    simp [default_fold_expression, default_fold_uint_expression_id s e h,
      Bind.bind, Except.bind, pure, Except.pure]
  | Array e =>
    simp only [int_free_expression] at h
    simp [default_fold_expression, default_fold_array_expression_id s e h,
      Bind.bind, Except.bind, pure, Except.pure]
  | Struct e =>
    simp only [int_free_expression] at h
    simp [default_fold_expression, default_fold_struct_expression_id s e h,
      Bind.bind, Except.bind, pure, Except.pure]
  | Int e => simp [int_free_expression] at h
termination_by sizeOf e

theorem default_fold_expression_or_spread_id {T S : Type} (s : S)
    (e : TypedExpressionOrSpread T) (h : int_free_eos e = true) :
    default_fold_expression_or_spread s e = .ok (s, e) := by
  cases e with
  | Expression e =>
    simp only [int_free_eos] at h
    simp [default_fold_expression_or_spread, default_fold_expression_id s e h,
      Bind.bind, Except.bind, pure, Except.pure]
  | Spread sp =>
    simp only [int_free_eos] at h
    simp [default_fold_expression_or_spread, default_fold_spread_id s sp h,
      Bind.bind, Except.bind, pure, Except.pure]
termination_by sizeOf e

theorem default_fold_spread_id {T S : Type} (s : S) (sp : TypedSpread T)
    (h : int_free_spread sp = true) :
    default_fold_spread s sp = .ok (s, sp) := by
  cases sp with
  | mk array =>
    simp only [int_free_spread] at h
    simp [default_fold_spread, default_fold_array_expression_id s array h,
      Bind.bind, Except.bind, pure, Except.pure]
termination_by sizeOf sp

theorem default_fold_expressions_id {T S : Type} (s : S) (l : List (TypedExpression T))
    (h : int_free_expressions l = true) :
    default_fold_expressions s l = .ok (s, l) := by
  match l with
  | [] => simp [default_fold_expressions, pure, Except.pure]
  | e :: l =>
    simp only [int_free_expressions, Bool.and_eq_true] at h
    simp [default_fold_expressions, default_fold_expression_id s e h.1,
      default_fold_expressions_id s l h.2,
      Bind.bind, Except.bind, pure, Except.pure]
termination_by sizeOf l

theorem default_fold_eos_list_id {T S : Type} (s : S)
    (l : List (TypedExpressionOrSpread T)) (h : int_free_eos_list l = true) :
    default_fold_eos_list s l = .ok (s, l) := by
  match l with
  | [] => simp [default_fold_eos_list, pure, Except.pure]
  | e :: l =>
    simp only [int_free_eos_list, Bool.and_eq_true] at h
    simp [default_fold_eos_list, default_fold_expression_or_spread_id s e h.1,
      default_fold_eos_list_id s l h.2,
      Bind.bind, Except.bind, pure, Except.pure]
termination_by sizeOf l

theorem default_fold_generics_id {T S : Type} (s : S)
    (l : List (Option (UExpression T))) (h : int_free_generics l = true) :
    default_fold_generics s l = .ok (s, l) := by
  match l with
  | [] => simp [default_fold_generics, pure, Except.pure]
  | none :: l =>
    simp only [int_free_generics] at h
    simp [default_fold_generics, default_fold_generics_id s l h,
      Bind.bind, Except.bind, pure, Except.pure]
  | some g :: l =>
    simp only [int_free_generics, Bool.and_eq_true] at h
    simp [default_fold_generics, default_fold_uint_expression_id s g h.1,
      default_fold_generics_id s l h.2,
      Bind.bind, Except.bind, pure, Except.pure]
termination_by sizeOf l

end

end TypedAbsy


namespace TypedAbsy

theorem default_fold_variable_id {T S : Type} (s : S) (v : Variable T)
    (h : int_free_variable v = true) :
    default_fold_variable s v = .ok (s, v) := by
  simp only [int_free_variable] at h
  simp [default_fold_variable, default_fold_name, default_fold_type_id s v._type h,
    Bind.bind, Except.bind, pure, Except.pure]

theorem default_fold_declaration_variable_id {S : Type} (s : S)
    (v : DeclarationVariable) :
    default_fold_declaration_variable s v = .ok (s, v) := rfl

theorem default_fold_parameter_id {S : Type} (s : S) (p : DeclarationParameter) :
    default_fold_parameter s p = .ok (s, p) := rfl

theorem default_fold_assignee_id {T S : Type} (s : S) (a : TypedAssignee T)
    (h : int_free_assignee a = true) :
    default_fold_assignee s a = .ok (s, a) := by
  induction a generalizing s with
  | Identifier v =>
    simp only [int_free_assignee] at h
    simp [default_fold_assignee, default_fold_variable_id s v h,
      Bind.bind, Except.bind, pure, Except.pure]
  | Select a index ih =>
    simp only [int_free_assignee, Bool.and_eq_true] at h
    simp [default_fold_assignee, ih s h.1,
      default_fold_uint_expression_id s index h.2,
      Bind.bind, Except.bind, pure, Except.pure]
  | Member a m ih =>
    simp only [int_free_assignee] at h
    simp [default_fold_assignee, ih s h,
      Bind.bind, Except.bind, pure, Except.pure]

theorem int_free_assignees_mem {T : Type} {l : List (TypedAssignee T)}
    (h : int_free_assignees l = true) :
    ∀ a ∈ l, int_free_assignee a = true := by
  induction l with
  | nil => intro a ha; cases ha
  | cons x l ih =>
    simp only [int_free_assignees, Bool.and_eq_true] at h
    intro a ha
    rcases List.mem_cons.mp ha with rfl | ha
    · exact h.1
    · exact ih h.2 a ha

theorem int_free_types_mem {T : Type} {l : List (GType T)}
    (h : int_free_types l = true) :
    ∀ t ∈ l, int_free_type t = true := by
  induction l with
  | nil => intro t ht; cases ht
  | cons x l ih =>
    simp only [int_free_types, Bool.and_eq_true] at h
    intro t ht
    rcases List.mem_cons.mp ht with rfl | ht
    · exact h.1
    · exact ih h.2 t ht

theorem default_fold_expression_list_id {T S : Type} (s : S)
    (es : TypedExpressionList T) (h : int_free_expression_list es = true) :
    default_fold_expression_list s es = .ok (s, es) := by
  cases es with
  | FunctionCall id generics arguments types =>
    simp only [int_free_expression_list, Bool.and_eq_true] at h
    simp [default_fold_expression_list,
      default_fold_generics_id s generics h.1.1,
      default_fold_expressions_id s arguments h.1.2,
      foldListState_id s (fun s' t ht => default_fold_type_id s' t
        (int_free_types_mem h.2 t ht)),
      Bind.bind, Except.bind, pure, Except.pure]

mutual

theorem default_fold_statement_id {T S : Type} (s : S) (st : TypedStatement T)
    (h : int_free_statement st = true) :
    default_fold_statement s st = .ok (s, [st]) := by
  cases st with
  | Return exprs =>
    simp only [int_free_statement] at h
    simp [default_fold_statement, default_fold_expressions_id s exprs h,
      Bind.bind, Except.bind, pure, Except.pure]
  | Definition a e =>
    simp only [int_free_statement, Bool.and_eq_true] at h
    simp [default_fold_statement, default_fold_assignee_id s a h.1,
      default_fold_expression_id s e h.2,
      Bind.bind, Except.bind, pure, Except.pure]
  | Declaration v =>
    simp only [int_free_statement] at h
    simp [default_fold_statement, default_fold_variable_id s v h,
      Bind.bind, Except.bind, pure, Except.pure]
  | Assertion e =>
    simp only [int_free_statement] at h
    simp [default_fold_statement, default_fold_boolean_expression_id s e h,
      Bind.bind, Except.bind, pure, Except.pure]
  | For v lo hi statements =>
    simp only [int_free_statement, Bool.and_eq_true] at h
    simp [default_fold_statement, default_fold_variable_id s v h.1.1.1,
      default_fold_uint_expression_id s lo h.1.1.2,
      default_fold_uint_expression_id s hi h.1.2,
      default_fold_statements_id s statements h.2,
      flatten_map_singleton,
      Bind.bind, Except.bind, pure, Except.pure]
  | MultipleDefinition vars elist =>
    simp only [int_free_statement, Bool.and_eq_true] at h
    simp [default_fold_statement,
      foldListState_id s (fun s' a ha => default_fold_assignee_id s' a
        (int_free_assignees_mem h.1 a ha)),
      default_fold_expression_list_id s elist h.2,
      Bind.bind, Except.bind, pure, Except.pure]
termination_by sizeOf st

theorem default_fold_statements_id {T S : Type} (s : S)
    (l : List (TypedStatement T)) (h : int_free_statements l = true) :
    default_fold_statements s l = .ok (s, l.map (fun st => [st])) := by
  match l with
  | [] => simp [default_fold_statements, pure, Except.pure]
  | st :: l =>
    simp only [int_free_statements, Bool.and_eq_true] at h
    simp [default_fold_statements, default_fold_statement_id s st h.1,
      default_fold_statements_id s l h.2,
      Bind.bind, Except.bind, pure, Except.pure]
termination_by sizeOf l

end

theorem default_fold_function_id {T S : Type} (s : S) (fn : TypedFunction T)
    (h : int_free_function fn = true) :
    default_fold_function s fn = .ok (s, fn) := by
  simp only [int_free_function] at h
  simp [default_fold_function,
    foldListState_id s (fun s' p _ => default_fold_parameter_id s' p),
    default_fold_statements_id s fn.statements h,
    flatten_map_singleton,
    Bind.bind, Except.bind, pure, Except.pure]

theorem default_fold_function_symbol_id {T S : Type} (s : S)
    (sym : TypedFunctionSymbol T) (h : int_free_function_symbol sym = true) :
    default_fold_function_symbol s sym = .ok (s, sym) := by
  cases sym with
  | Here fn =>
    simp only [int_free_function_symbol] at h
    simp [default_fold_function_symbol, default_fold_function_id s fn h,
      Bind.bind, Except.bind, pure, Except.pure]
  | There key module_id =>
    simp [default_fold_function_symbol, pure, Except.pure]

theorem int_free_symbols_mem {T : Type} {l : List (Nat × TypedFunctionSymbol T)}
    (h : int_free_symbols l = true) :
    ∀ kf ∈ l, int_free_function_symbol kf.2 = true := by
  induction l with
  | nil => intro kf hkf; cases hkf
  | cons x l ih =>
    simp only [int_free_symbols, Bool.and_eq_true] at h
    intro kf hkf
    rcases List.mem_cons.mp hkf with rfl | hkf
    · exact h.1
    · exact ih h.2 kf hkf

theorem fold_symbols_list_id {T S : Type} (s : S)
    (l : List (Nat × TypedFunctionSymbol T)) (h : int_free_symbols l = true) :
    foldListState (fun s' (kf : Nat × TypedFunctionSymbol T) => do
      let (s'', sym) ← default_fold_function_symbol s' kf.2
      pure (s'', (kf.1, sym))) s l = .ok (s, l) := by
  induction l generalizing s with
  | nil => rfl
  | cons kf l ih =>
    simp only [int_free_symbols, Bool.and_eq_true] at h
    have hstep : (fun s' (kf : Nat × TypedFunctionSymbol T) => do
        let (s'', sym) ← default_fold_function_symbol s' kf.2
        pure (s'', (kf.1, sym))) s kf = .ok (s, kf) := by
      simp [default_fold_function_symbol_id s kf.2 h.1,
        Bind.bind, Except.bind, pure, Except.pure]
    exact foldListState_cons_ok hstep (ih s h.2)

theorem default_fold_module_id {T S : Type} (s : S) (m : TypedModule T)
    (h : int_free_module m = true) :
    default_fold_module s m = .ok (s, m) := by
  simp only [int_free_module] at h
  unfold default_fold_module
  rw [fold_symbols_list_id s m.functions h]
  simp [Bind.bind, Except.bind, pure, Except.pure]

theorem int_free_modules_mem {T : Type} {l : List (Nat × TypedModule T)}
    (h : int_free_modules l = true) :
    ∀ km ∈ l, int_free_module km.2 = true := by
  induction l with
  | nil => intro km hkm; cases hkm
  | cons x l ih =>
    simp only [int_free_modules, Bool.and_eq_true] at h
    intro km hkm
    rcases List.mem_cons.mp hkm with rfl | hkm
    · exact h.1
    · exact ih h.2 km hkm

theorem fold_modules_list_id {T S : Type} (s : S)
    (l : List (Nat × TypedModule T)) (h : int_free_modules l = true) :
    foldListState (fun s' (km : Nat × TypedModule T) => do
      let (s'', m) ← default_fold_module s' km.2
      pure (s'', (km.1, m))) s l = .ok (s, l) := by
  induction l generalizing s with
  | nil => rfl
  | cons km l ih =>
    simp only [int_free_modules, Bool.and_eq_true] at h
    have hstep : (fun s' (km : Nat × TypedModule T) => do
        let (s'', m) ← default_fold_module s' km.2
        pure (s'', (km.1, m))) s km = .ok (s, km) := by
      simp [default_fold_module_id s km.2 h.1,
        Bind.bind, Except.bind, pure, Except.pure]
    exact foldListState_cons_ok hstep (ih s h.2)

theorem default_fold_program_id {T S : Type} (s : S) (p : TypedProgram T)
    (h : int_free_program p = true) :
    default_fold_program s p = .ok (s, p) := by
  simp only [int_free_program] at h
  unfold default_fold_program
  rw [fold_modules_list_id s p.modules h]
  simp [Bind.bind, Except.bind, pure, Except.pure]

end TypedAbsy


/-! Support lemmas for the claim theorems. -/

theorem mapState_unit {α β : Type} (f : Unit → α → Unit × β) (l : List α) :
    mapState f () l = ((), l.map (fun a => (f () a).2)) := by
  induction l with
  | nil => rfl
  | cons a l ih =>
    cases hfa : f () a with
    | mk u b => simp [mapState, hfa, ih]

theorem argument_private_invariant {T S : Type} (f : Ir.Folder T S)
    (h : f.fold_argument = Ir.fold_argument f) (s : S) (a : Ir.FlatParameter) :
    ((f.fold_argument s a).2).«private» = a.«private» := by
  rw [h]
  cases hv : f.fold_variable s a.id with
  | mk s1 v => simp [Ir.fold_argument, hv]

namespace TypedAbsy

theorem foldListState_map_invariant {S α β γ : Type} {f : S → α → FRes (S × β)}
    (g : α → γ) (k : β → γ)
    (hpt : ∀ s a s' b, f s a = .ok (s', b) → k b = g a) :
    ∀ {s s' : S} {l : List α} {l' : List β},
      foldListState f s l = .ok (s', l') → l'.map k = l.map g := by
  intro s s' l l'
  induction l generalizing s s' l' with
  | nil =>
    intro h
    simp only [foldListState_nil, Except.ok.injEq, Prod.mk.injEq] at h
    simp [← h.2]
  | cons a l ih =>
    intro h
    simp only [foldListState] at h
    cases hfa : f s a with
    | error e =>
      rw [hfa] at h
      simp [Bind.bind, Except.bind] at h
    | ok r =>
      obtain ⟨s1, b⟩ := r
      rw [hfa] at h
      simp only [Bind.bind, Except.bind] at h
      cases hrest : foldListState f s1 l with
      | error e => rw [hrest] at h; cases h
      | ok r2 =>
        rw [hrest] at h
        obtain ⟨s2, l2⟩ := r2
        simp only [pure, Except.pure, Except.ok.injEq, Prod.mk.injEq] at h
        rw [← h.2]
        simp [hpt s a s1 b hfa, ih hrest]

end TypedAbsy

/-! ## Claim theorems -/

/-- C1 (counterexample): with a stand-in canonicalizer whose
`fold_argument` bumps the argument id, `optimize` produces an argument list
different from the one obtained by passing each argument through the
`fold_argument` override of every one of the five passes: the
canonicalizer's `fold_argument` is never consulted by `optimize`. -/
theorem optimize_arguments_per_spec_refuted :
    (Optimizer.optimize Ir.defaultFolder Ir.defaultFolder Examples.bumpArgumentFolder
        Ir.defaultFolder Ir.defaultFolder () () () () () Examples.progIterEx).arguments ≠
      Optimizer.optimizeArgumentsPerSpec Ir.defaultFolder Ir.defaultFolder
        Examples.bumpArgumentFolder Ir.defaultFolder Ir.defaultFolder () () () () ()
        Examples.progIterEx.arguments := by
  decide

/-- C1 (amended): `optimize` passes each argument through the
`fold_argument` overrides of the redefinition, tautology, directive and
duplicate passes, in that order — the canonicalization pass's
`fold_argument` is not applied to arguments, and the output arguments are
independent of the canonicalizer — and it copies `return_count` unchanged
without applying any `fold_variable` to returns. -/
theorem optimize_argument_return_boundary {T S1 S2 S3 S4 S5 : Type}
    (f1 : Ir.Folder T S1) (f2 : Ir.Folder T S2) (f3 : Ir.Folder T S3)
    (f4 : Ir.Folder T S4) (f5 : Ir.Folder T S5)
    (s1 : S1) (s2 : S2) (s3 : S3) (s4 : S4) (s5 : S5) (p : Ir.ProgIterator T) :
    (Optimizer.optimize f1 f2 f3 f4 f5 s1 s2 s3 s4 s5 p).arguments =
      Optimizer.optimizeArguments f1 f2 f4 f5 s1 s2 s4 s5 p.arguments ∧
    (Optimizer.optimize f1 f2 f3 f4 f5 s1 s2 s3 s4 s5 p).return_count =
      p.return_count ∧
    ∀ (S3' : Type) (f3' : Ir.Folder T S3') (s3' : S3'),
      (Optimizer.optimize f1 f2 f3' f4 f5 s1 s2 s3' s4 s5 p).arguments =
        (Optimizer.optimize f1 f2 f3 f4 f5 s1 s2 s3 s4 s5 p).arguments :=
  ⟨rfl, rfl, fun _ _ _ => rfl⟩

/-- C2: folding with a no-override implementation is the identity, in both
frameworks: the IR `fold_module` default returns the program unchanged, and
the `ResultFolder` `fold_program` default returns success carrying the
program unchanged provided no untyped integer literal node is reachable by
the fold. -/
theorem no_override_fold_identity :
    (∀ (T S : Type) (s : S) (p : Ir.Prog T),
      Ir.fold_module (Ir.defaultFolder (T := T) (S := S)) s p = (s, p)) ∧
    (∀ (T S : Type) (s : S) (p : TypedAbsy.TypedProgram T),
      TypedAbsy.int_free_program p = true →
      TypedAbsy.fold_program TypedAbsy.defaultResultFolder s p = .ok (s, p)) := by
  constructor
  · intro T S s p
    exact Ir.fold_module_default_id s p
  · intro T S s p h
    show TypedAbsy.default_fold_program s p = .ok (s, p)
    exact TypedAbsy.default_fold_program_id s p h

/-- C2 (witness): the identity at a concrete flattened program and a
concrete int-free typed program. -/
theorem no_override_fold_identity_witness :
    Ir.fold_module Ir.defaultFolder (0 : Nat) Examples.progEx = (0, Examples.progEx) ∧
    TypedAbsy.fold_program TypedAbsy.defaultResultFolder () Examples.wfProgram =
      .ok ((), Examples.wfProgram) :=
  ⟨no_override_fold_identity.1 Unit Nat 0 Examples.progEx,
   no_override_fold_identity.2 Unit Unit () Examples.wfProgram (by
    simp [Examples.wfProgram, TypedAbsy.int_free_program, TypedAbsy.int_free_modules,
      TypedAbsy.int_free_module, TypedAbsy.int_free_symbols,
      TypedAbsy.int_free_function_symbol, TypedAbsy.int_free_function,
      TypedAbsy.int_free_statements, TypedAbsy.int_free_statement,
      TypedAbsy.int_free_expressions, TypedAbsy.int_free_expression,
      TypedAbsy.int_free_boolean_expression, TypedAbsy.int_free_variable,
      TypedAbsy.int_free_type])⟩

/-- C3 (counterexample): with a folder whose `fold_struct_type` bumps the
struct type's canonical id and whose inner fold is the identity, the
default `fold_struct_expression` differs from the claim's reading (fold the
declared type first, pass it in, store it): the default passes and stores
the original unfolded type. -/
theorem fold_struct_expression_per_spec_refuted :
    TypedAbsy.fold_struct_expression Examples.bumpStructTypeFolder () Examples.structExprEx ≠
      TypedAbsy.fold_struct_expression_per_spec Examples.bumpStructTypeFolder ()
        Examples.structExprEx := by
  have h1 : TypedAbsy.fold_struct_expression Examples.bumpStructTypeFolder ()
      Examples.structExprEx =
      .ok ((), .mk (.mk 0 []) (.Identifier 0)) := rfl
  have h2 : TypedAbsy.fold_struct_expression_per_spec Examples.bumpStructTypeFolder ()
      Examples.structExprEx =
      .ok ((), .mk (.mk 1 []) (.Identifier 0)) := rfl
  rw [h1, h2]
  simp

/-- C3 (amended): the default `fold_array_expression` folds the declared
array type first, passes the folded type into the inner fold, and stores
the folded type in the rebuilt node; the default `fold_struct_expression`,
by contrast, passes the original unfolded struct type into the inner fold,
stores the original type unchanged, and never invokes `fold_struct_type`. -/
theorem fold_array_struct_expression_type_threading :
    (∀ (T S : Type) (f : TypedAbsy.ResultFolder T S) (s s1 s2 : S)
      (e : TypedAbsy.ArrayExpression T) (ty' : TypedAbsy.ArrayType T)
      (inner' : TypedAbsy.ArrayExpressionInner T),
      f.fold_array_type s e.ty = .ok (s1, ty') →
      f.fold_array_expression_inner s1 ty' e.inner = .ok (s2, inner') →
      TypedAbsy.fold_array_expression f s e = .ok (s2, .mk ty' inner')) ∧
    (∀ (T S : Type) (f : TypedAbsy.ResultFolder T S) (s : S)
      (e : TypedAbsy.StructExpression T),
      TypedAbsy.fold_struct_expression f s e =
        Except.map (fun r => (r.1, TypedAbsy.StructExpression.mk e.ty r.2))
          (f.fold_struct_expression_inner s e.ty e.inner)) ∧
    (∀ (T S : Type) (f : TypedAbsy.ResultFolder T S)
      (g : S → TypedAbsy.StructType T → TypedAbsy.FRes (S × TypedAbsy.StructType T))
      (s : S) (e : TypedAbsy.StructExpression T),
      TypedAbsy.fold_struct_expression { f with fold_struct_type := g } s e =
        TypedAbsy.fold_struct_expression f s e) := by
  refine ⟨?_, ?_, ?_⟩
  · intro T S f s s1 s2 e ty' inner' h1 h2
    simp [TypedAbsy.fold_struct_expression, TypedAbsy.fold_array_expression, h1, h2,
      Bind.bind, Except.bind, pure, Except.pure]
  · intro T S f s e
    cases hx : f.fold_struct_expression_inner s e.ty e.inner with
    | error err =>
      simp [TypedAbsy.fold_struct_expression, hx, Except.map,
        Bind.bind, Except.bind, pure, Except.pure]
    | ok r =>
      simp [TypedAbsy.fold_struct_expression, hx, Except.map,
        Bind.bind, Except.bind, pure, Except.pure]
  · intro T S f g s e
    rfl

/-- C3 (witness): the array-side characterization at a concrete array
expression under the no-override folder. -/
theorem fold_array_struct_expression_type_threading_witness :
    TypedAbsy.fold_array_expression TypedAbsy.defaultResultFolder ()
      Examples.arrayExprEx = .ok ((), Examples.arrayExprEx) :=
  fold_array_struct_expression_type_threading.1 Unit Unit
    TypedAbsy.defaultResultFolder () () () Examples.arrayExprEx
    (.mk .Boolean (.mk 32 (.Value 2))) (.Identifier 3)
    (by simp [Examples.arrayExprEx, TypedAbsy.ArrayExpression.ty,
      TypedAbsy.defaultResultFolder, TypedAbsy.default_fold_array_type,
      TypedAbsy.default_fold_type, TypedAbsy.default_fold_uint_expression,
      TypedAbsy.default_fold_uint_expression_inner,
      Bind.bind, Except.bind, pure, Except.pure])
    (by simp [Examples.arrayExprEx, TypedAbsy.ArrayExpression.inner,
      TypedAbsy.defaultResultFolder, TypedAbsy.default_fold_array_expression_inner,
      TypedAbsy.default_fold_name,
      Bind.bind, Except.bind, pure, Except.pure])

/-- C4: failure of any sub-fold aborts `fold_function`, `fold_module` and
`fold_program` with exactly that first error: whatever siblings follow the
failing node, the result is the error itself, so no later sibling is folded
and no partial output is returned. -/
theorem result_folder_fail_fast :
    (∀ (T S : Type) (f : TypedAbsy.ResultFolder T S) (s s1 : S)
      (ps1 bs : List TypedAbsy.DeclarationParameter) (x : TypedAbsy.DeclarationParameter)
      (ps2 : List TypedAbsy.DeclarationParameter)
      (stmts : List (TypedAbsy.TypedStatement T)) (sig : Nat) (err : TypedAbsy.Failure),
      TypedAbsy.foldListState f.fold_parameter s ps1 = .ok (s1, bs) →
      f.fold_parameter s1 x = .error err →
      TypedAbsy.fold_function f s ⟨ps1 ++ x :: ps2, stmts, sig⟩ = .error err) ∧
    (∀ (T S : Type) (f : TypedAbsy.ResultFolder T S) (s s1 s2 : S)
      (args : List TypedAbsy.DeclarationParameter)
      (args' : List TypedAbsy.DeclarationParameter)
      (sts1 : List (TypedAbsy.TypedStatement T))
      (bss : List (List (TypedAbsy.TypedStatement T)))
      (x : TypedAbsy.TypedStatement T) (sts2 : List (TypedAbsy.TypedStatement T))
      (sig : Nat) (err : TypedAbsy.Failure),
      TypedAbsy.foldListState f.fold_parameter s args = .ok (s1, args') →
      TypedAbsy.foldListState f.fold_statement s1 sts1 = .ok (s2, bss) →
      f.fold_statement s2 x = .error err →
      TypedAbsy.fold_function f s ⟨args, sts1 ++ x :: sts2, sig⟩ = .error err) ∧
    (∀ (T S : Type) (f : TypedAbsy.ResultFolder T S) (s s1 : S)
      (l1 : List (Nat × TypedAbsy.TypedFunctionSymbol T))
      (bs : List (Nat × TypedAbsy.TypedFunctionSymbol T)) (k : Nat)
      (sym : TypedAbsy.TypedFunctionSymbol T)
      (l2 : List (Nat × TypedAbsy.TypedFunctionSymbol T)) (err : TypedAbsy.Failure),
      TypedAbsy.foldListState (fun s' (kf : Nat × TypedAbsy.TypedFunctionSymbol T) => do
        let (s'', sym) ← f.fold_function_symbol s' kf.2
        pure (s'', (kf.1, sym))) s l1 = .ok (s1, bs) →
      f.fold_function_symbol s1 sym = .error err →
      TypedAbsy.fold_module f s ⟨l1 ++ (k, sym) :: l2⟩ = .error err) ∧
    (∀ (T S : Type) (f : TypedAbsy.ResultFolder T S) (s s1 : S)
      (l1 : List (Nat × TypedAbsy.TypedModule T))
      (bs : List (Nat × TypedAbsy.TypedModule T)) (k : Nat)
      (m : TypedAbsy.TypedModule T) (l2 : List (Nat × TypedAbsy.TypedModule T))
      (main : Nat) (err : TypedAbsy.Failure),
      TypedAbsy.foldListState (fun s' (km : Nat × TypedAbsy.TypedModule T) => do
        let (s'', m) ← f.fold_module s' km.2
        pure (s'', (km.1, m))) s l1 = .ok (s1, bs) →
      f.fold_module s1 m = .error err →
      TypedAbsy.fold_program f s ⟨l1 ++ (k, m) :: l2, main⟩ = .error err) := by
  refine ⟨?_, ?_, ?_, ?_⟩
  · intro T S f s s1 ps1 bs x ps2 stmts sig err h1 hx
    simp [TypedAbsy.fold_function, TypedAbsy.foldListState_prefix_err h1 hx ps2,
      Bind.bind, Except.bind]
  · intro T S f s s1 s2 args args' sts1 bss x sts2 sig err hargs hpre hx
    simp [TypedAbsy.fold_function, hargs, TypedAbsy.foldListState_prefix_err hpre hx sts2,
      Bind.bind, Except.bind]
  · intro T S f s s1 l1 bs k sym l2 err hpre hx
    have hstep : (fun s' (kf : Nat × TypedAbsy.TypedFunctionSymbol T) => do
        let (s'', sym) ← f.fold_function_symbol s' kf.2
        pure (s'', (kf.1, sym))) s1 (k, sym) = .error err := by
      simp [hx, Bind.bind, Except.bind]
    unfold TypedAbsy.fold_module
    rw [TypedAbsy.foldListState_prefix_err hpre hstep l2]
    rfl
  · intro T S f s s1 l1 bs k m l2 main err hpre hx
    have hstep : (fun s' (km : Nat × TypedAbsy.TypedModule T) => do
        let (s'', m) ← f.fold_module s' km.2
        pure (s'', (km.1, m))) s1 (k, m) = .error err := by
      simp [hx, Bind.bind, Except.bind]
    unfold TypedAbsy.fold_program
    rw [TypedAbsy.foldListState_prefix_err hpre hstep l2]
    rfl

/-- C4 (witness): a folder failing with a distinct compile error at four
different override sites propagates exactly that error out of
`fold_function` (failing parameter and failing statement), `fold_module`
and `fold_program`, each with a sibling after the failing node. -/
theorem result_folder_fail_fast_witness :
    TypedAbsy.fold_function Examples.failFolder ()
      ⟨[⟨⟨0, 0⟩, false⟩, ⟨⟨1, 1⟩, true⟩], [], 0⟩ = .error (.CompileError ⟨1⟩) ∧
    TypedAbsy.fold_function
      { Examples.failFolder with fold_parameter := fun s p => pure (s, p) } ()
      ⟨[], [.Declaration ⟨0, .FieldElement⟩, .Declaration ⟨1, .Boolean⟩], 0⟩ =
        .error (.CompileError ⟨2⟩) ∧
    TypedAbsy.fold_module Examples.failFolder ()
      ⟨[(0, .There 1 2), (1, .There 3 4)]⟩ = .error (.CompileError ⟨3⟩) ∧
    TypedAbsy.fold_program Examples.failFolder ()
      ⟨[(0, ⟨[]⟩), (1, ⟨[]⟩)], 9⟩ = .error (.CompileError ⟨4⟩) :=
  ⟨result_folder_fail_fast.1 Unit Unit Examples.failFolder () () [] [] ⟨⟨0, 0⟩, false⟩
      [⟨⟨1, 1⟩, true⟩] [] 0 (.CompileError ⟨1⟩) rfl rfl,
   result_folder_fail_fast.2.1 Unit Unit
      { Examples.failFolder with fold_parameter := fun s p => pure (s, p) } () () ()
      [] [] [] [] (.Declaration ⟨0, .FieldElement⟩) [.Declaration ⟨1, .Boolean⟩] 0
      (.CompileError ⟨2⟩) rfl rfl rfl,
   result_folder_fail_fast.2.2.1 Unit Unit Examples.failFolder () () [] [] 0
      (.There 1 2) [(1, .There 3 4)] (.CompileError ⟨3⟩) rfl rfl,
   result_folder_fail_fast.2.2.2 Unit Unit Examples.failFolder () () [] [] 0
      ⟨[]⟩ [(1, ⟨[]⟩)] 9 (.CompileError ⟨4⟩) rfl rfl⟩

/-- C5: the default `fold_int_expression` never returns normally: on every
input it produces the fatal broken-invariant failure, which is distinct
from every ordinary compile error; consequently folding a typed program
holding a residual untyped integer literal in a locally defined function
body produces the fatal failure. -/
theorem fold_int_expression_fatal :
    (∀ (T S : Type) (f : TypedAbsy.ResultFolder T S) (s : S)
      (e : TypedAbsy.IntExpression T),
      TypedAbsy.fold_int_expression f s e = .error .Fatal) ∧
    (∀ c : TypedAbsy.CompileError,
      (TypedAbsy.Failure.Fatal : TypedAbsy.Failure) ≠ .CompileError c) ∧
    TypedAbsy.fold_program TypedAbsy.defaultResultFolder () Examples.intProgram =
      .error .Fatal := by
  refine ⟨fun _ _ _ _ _ => rfl, fun c => by simp, ?_⟩
  show TypedAbsy.default_fold_program () Examples.intProgram = .error .Fatal
  simp [Examples.intProgram, TypedAbsy.default_fold_program,
    TypedAbsy.default_fold_module, TypedAbsy.default_fold_function_symbol,
    TypedAbsy.default_fold_function, TypedAbsy.default_fold_statements,
    TypedAbsy.default_fold_statement, TypedAbsy.default_fold_expressions,
    TypedAbsy.default_fold_expression, TypedAbsy.default_fold_int_expression,
    TypedAbsy.foldListState, Bind.bind, Except.bind, pure, Except.pure]

/-- C6: the default `fold_linear_combination` preserves the number, order
and values of the coefficients; the default `fold_variable` is the
identity; and the implementation that overrides only `fold_variable` with a
substitution applies it to every variable occurrence of every linear
combination, quadratic combination and directive (inputs and outputs). -/
theorem fold_variable_substitution_uniform :
    (∀ (T S : Type) (f : Ir.Folder T S) (s : S) (e : Ir.LinComb T),
      ((Ir.fold_linear_combination f s e).2).terms.length = e.terms.length ∧
      ((Ir.fold_linear_combination f s e).2).terms.map Prod.snd =
        e.terms.map Prod.snd) ∧
    (∀ (T S : Type) (f : Ir.Folder T S) (s : S) (v : Ir.FlatVariable),
      Ir.fold_variable f s v = (s, v)) ∧
    (∀ (T : Type) (σ : Ir.FlatVariable → Ir.FlatVariable) (e : Ir.LinComb T),
      (Ir.substFolder σ).fold_linear_combination () e =
        ((), ⟨e.terms.map (fun vc => (σ vc.1, vc.2))⟩)) ∧
    (∀ (T : Type) (σ : Ir.FlatVariable → Ir.FlatVariable) (q : Ir.QuadComb T),
      (Ir.substFolder σ).fold_quadratic_combination () q =
        ((), ⟨⟨q.left.terms.map (fun vc => (σ vc.1, vc.2))⟩,
              ⟨q.right.terms.map (fun vc => (σ vc.1, vc.2))⟩⟩)) ∧
    (∀ (T : Type) (σ : Ir.FlatVariable → Ir.FlatVariable) (d : Ir.Directive T),
      (Ir.substFolder σ).fold_directive () d =
        ((), { inputs := d.inputs.map (fun q =>
                 ⟨⟨q.left.terms.map (fun vc => (σ vc.1, vc.2))⟩,
                  ⟨q.right.terms.map (fun vc => (σ vc.1, vc.2))⟩⟩)
               outputs := d.outputs.map σ
               solver := d.solver })) := by
  refine ⟨?_, fun T S f s v => rfl, ?_, ?_, ?_⟩
  · intro T S f s e
    constructor
    · cases hm : mapState (fun s' (vc : Ir.FlatVariable × T) =>
          let (s'', v') := f.fold_variable s' vc.1
          (s'', (v', vc.2))) s e.terms with
      | mk s1 ts =>
        have hl := mapState_length (fun s' (vc : Ir.FlatVariable × T) =>
          let (s'', v') := f.fold_variable s' vc.1
          (s'', (v', vc.2))) s e.terms
        rw [hm] at hl
        simp [Ir.fold_linear_combination, hm, hl]
    · cases hm : mapState (fun s' (vc : Ir.FlatVariable × T) =>
          let (s'', v') := f.fold_variable s' vc.1
          (s'', (v', vc.2))) s e.terms with
      | mk s1 ts =>
        have hsnd := mapState_map_invariant (f := fun s' (vc : Ir.FlatVariable × T) =>
            let (s'', v') := f.fold_variable s' vc.1
            (s'', (v', vc.2))) Prod.snd s e.terms (fun s' vc => by
          cases hv : f.fold_variable s' vc.1 with
          | mk a b => simp [hv])
        rw [hm] at hsnd
        simp [Ir.fold_linear_combination, hm, hsnd]
  · intro T σ e
    show Ir.fold_linear_combination (Ir.substFolder σ) () e = _
    simp [Ir.fold_linear_combination, Ir.substFolder, Ir.implWithVariable, mapState_unit]
  · intro T σ q
    show Ir.fold_quadratic_combination (Ir.substFolder σ) () q = _
    simp [Ir.fold_quadratic_combination, Ir.fold_linear_combination, Ir.substFolder,
      Ir.implWithVariable, mapState_unit]
  · intro T σ d
    show Ir.fold_directive (Ir.substFolder σ) () d = _
    simp [Ir.fold_directive, Ir.substFolder, Ir.implWithVariable, mapState_unit]

/-- C7: the default `fold_function_symbol` folds the contained function of
a "Here" symbol (propagating its outcome) and returns every "There" symbol
unchanged without consulting the folder at all, so folding a module folds
only the bodies defined in it. -/
theorem fold_function_symbol_here_there :
    (∀ (T S : Type) (f : TypedAbsy.ResultFolder T S) (s : S) (key module_id : Nat),
      TypedAbsy.fold_function_symbol f s (.There key module_id) =
        .ok (s, .There key module_id)) ∧
    (∀ (T S : Type) (f g : TypedAbsy.ResultFolder T S) (s : S) (key module_id : Nat),
      TypedAbsy.fold_function_symbol f s (.There key module_id) =
        TypedAbsy.fold_function_symbol g s (.There key module_id)) ∧
    (∀ (T S : Type) (f : TypedAbsy.ResultFolder T S) (s : S)
      (fn : TypedAbsy.TypedFunction T),
      TypedAbsy.fold_function_symbol f s (.Here fn) =
        Except.map (fun r => (r.1, TypedAbsy.TypedFunctionSymbol.Here r.2))
          (f.fold_function s fn)) := by
  refine ⟨fun T S f s k m => rfl, fun T S f g s k m => rfl, ?_⟩
  intro T S f s fn
  cases hx : f.fold_function s fn with
  | error err =>
    simp [TypedAbsy.fold_function_symbol, hx, Except.map,
      Bind.bind, Except.bind, pure, Except.pure]
  | ok r =>
    simp [TypedAbsy.fold_function_symbol, hx, Except.map,
      Bind.bind, Except.bind, pure, Except.pure]

/-- C8: for passes that keep the default `fold_argument` (rewriting only
the id through `fold_variable`, never the visibility flag), `optimize`
preserves the argument count, every argument's private/public flag, and
the return count. -/
theorem optimize_preserves_interface {T S1 S2 S3 S4 S5 : Type}
    (f1 : Ir.Folder T S1) (f2 : Ir.Folder T S2) (f3 : Ir.Folder T S3)
    (f4 : Ir.Folder T S4) (f5 : Ir.Folder T S5)
    (s1 : S1) (s2 : S2) (s3 : S3) (s4 : S4) (s5 : S5) (p : Ir.ProgIterator T)
    (h1 : f1.fold_argument = Ir.fold_argument f1)
    (h2 : f2.fold_argument = Ir.fold_argument f2)
    (h4 : f4.fold_argument = Ir.fold_argument f4)
    (h5 : f5.fold_argument = Ir.fold_argument f5) :
    (Optimizer.optimize f1 f2 f3 f4 f5 s1 s2 s3 s4 s5 p).arguments.length =
      p.arguments.length ∧
    (Optimizer.optimize f1 f2 f3 f4 f5 s1 s2 s3 s4 s5 p).arguments.map
        Ir.FlatParameter.«private» =
      p.arguments.map Ir.FlatParameter.«private» ∧
    (Optimizer.optimize f1 f2 f3 f4 f5 s1 s2 s3 s4 s5 p).return_count =
      p.return_count := by
  refine ⟨?_, ?_, rfl⟩
  · show ((mapState f5.fold_argument s5 (mapState f4.fold_argument s4
      (mapState f2.fold_argument s2
        (mapState f1.fold_argument s1 p.arguments).2).2).2).2).length = _
    simp [mapState_length]
  · show ((mapState f5.fold_argument s5 (mapState f4.fold_argument s4
      (mapState f2.fold_argument s2
        (mapState f1.fold_argument s1 p.arguments).2).2).2).2).map
        Ir.FlatParameter.«private» = _
    rw [mapState_map_invariant Ir.FlatParameter.«private» _ _
        (argument_private_invariant f5 h5),
      mapState_map_invariant Ir.FlatParameter.«private» _ _
        (argument_private_invariant f4 h4),
      mapState_map_invariant Ir.FlatParameter.«private» _ _
        (argument_private_invariant f2 h2),
      mapState_map_invariant Ir.FlatParameter.«private» _ _
        (argument_private_invariant f1 h1)]

/-- C8 (witness): the interface preservation at the no-override passes and
a concrete program. -/
theorem optimize_preserves_interface_witness :
    (Optimizer.optimize Ir.defaultFolder Ir.defaultFolder Ir.defaultFolder
      Ir.defaultFolder Ir.defaultFolder () () () () ()
      Examples.progIterEx).arguments.length = Examples.progIterEx.arguments.length ∧
    (Optimizer.optimize Ir.defaultFolder Ir.defaultFolder Ir.defaultFolder
      Ir.defaultFolder Ir.defaultFolder () () () () ()
      Examples.progIterEx).arguments.map Ir.FlatParameter.«private» =
      Examples.progIterEx.arguments.map Ir.FlatParameter.«private» ∧
    (Optimizer.optimize Ir.defaultFolder Ir.defaultFolder Ir.defaultFolder
      Ir.defaultFolder Ir.defaultFolder () () () () ()
      Examples.progIterEx).return_count = Examples.progIterEx.return_count :=
  optimize_preserves_interface (T := Unit) Ir.defaultFolder Ir.defaultFolder
    Ir.defaultFolder Ir.defaultFolder Ir.defaultFolder () () () () ()
    Examples.progIterEx rfl rfl rfl rfl

/-- C9: on success, the default `fold_program` preserves the main module id
and the list of module ids (none added, removed or renamed), and the
default `fold_module` preserves the list of function keys, folding only the
associated symbols. -/
theorem fold_program_module_frame :
    (∀ (T S : Type) (f : TypedAbsy.ResultFolder T S) (s s' : S)
      (p p' : TypedAbsy.TypedProgram T),
      TypedAbsy.fold_program f s p = .ok (s', p') →
      p'.main = p.main ∧ p'.modules.map Prod.fst = p.modules.map Prod.fst ∧
        p'.modules.length = p.modules.length) ∧
    (∀ (T S : Type) (f : TypedAbsy.ResultFolder T S) (s s' : S)
      (m m' : TypedAbsy.TypedModule T),
      TypedAbsy.fold_module f s m = .ok (s', m') →
      m'.functions.map Prod.fst = m.functions.map Prod.fst ∧
        m'.functions.length = m.functions.length) := by
  constructor
  · intro T S f s s' p p' h
    simp only [TypedAbsy.fold_program] at h
    cases hfl : TypedAbsy.foldListState (fun s' (km : Nat × TypedAbsy.TypedModule T) => do
        let (s'', m) ← f.fold_module s' km.2
        pure (s'', (km.1, m))) s p.modules with
    | error err => rw [hfl] at h; cases h
    | ok r =>
      obtain ⟨sr, mods⟩ := r
      rw [hfl] at h
      simp only [Bind.bind, Except.bind, pure, Except.pure, Except.ok.injEq,
        Prod.mk.injEq] at h
      have hkeys : mods.map Prod.fst = p.modules.map Prod.fst := by
        refine TypedAbsy.foldListState_map_invariant Prod.fst Prod.fst ?_ hfl
        intro sa km sb b hb
        cases hg : f.fold_module sa km.2 with
        | error err => simp [hg, Bind.bind, Except.bind] at hb
        | ok r2 =>
          simp [hg, Bind.bind, Except.bind, pure, Except.pure] at hb
          rw [← hb.2]
      have hp' : p' = { modules := mods, main := p.main } := h.2.symm
      subst hp'
      refine ⟨rfl, hkeys, ?_⟩
      have := congrArg List.length hkeys
      simpa using this
  · intro T S f s s' m m' h
    simp only [TypedAbsy.fold_module] at h
    cases hfl : TypedAbsy.foldListState
        (fun s' (kf : Nat × TypedAbsy.TypedFunctionSymbol T) => do
          let (s'', sym) ← f.fold_function_symbol s' kf.2
          pure (s'', (kf.1, sym))) s m.functions with
    | error err => rw [hfl] at h; cases h
    | ok r =>
      obtain ⟨sr, fns⟩ := r
      rw [hfl] at h
      simp only [Bind.bind, Except.bind, pure, Except.pure, Except.ok.injEq,
        Prod.mk.injEq] at h
      have hkeys : fns.map Prod.fst = m.functions.map Prod.fst := by
        refine TypedAbsy.foldListState_map_invariant Prod.fst Prod.fst ?_ hfl
        intro sa kf sb b hb
        cases hg : f.fold_function_symbol sa kf.2 with
        | error err => simp [hg, Bind.bind, Except.bind] at hb
        | ok r2 =>
          simp [hg, Bind.bind, Except.bind, pure, Except.pure] at hb
          rw [← hb.2]
      have hm' : m' = { functions := fns } := h.2.symm
      subst hm'
      refine ⟨hkeys, ?_⟩
      have := congrArg List.length hkeys
      simpa using this

/-- C9 (witness): the frame conditions at the no-override folder and a
concrete program (whose fold succeeds as the identity). -/
theorem fold_program_module_frame_witness :
    Examples.wfProgram.main = Examples.wfProgram.main ∧
    Examples.wfProgram.modules.map Prod.fst = Examples.wfProgram.modules.map Prod.fst ∧
    Examples.wfProgram.modules.length = Examples.wfProgram.modules.length :=
  fold_program_module_frame.1 Unit Unit TypedAbsy.defaultResultFolder () ()
    Examples.wfProgram Examples.wfProgram (by
      show TypedAbsy.default_fold_program () Examples.wfProgram =
        .ok ((), Examples.wfProgram)
      refine TypedAbsy.default_fold_program_id () Examples.wfProgram ?_
      simp [Examples.wfProgram, TypedAbsy.int_free_program, TypedAbsy.int_free_modules,
        TypedAbsy.int_free_module, TypedAbsy.int_free_symbols,
        TypedAbsy.int_free_function_symbol, TypedAbsy.int_free_function,
        TypedAbsy.int_free_statements, TypedAbsy.int_free_statement,
        TypedAbsy.int_free_expressions, TypedAbsy.int_free_expression,
        TypedAbsy.int_free_boolean_expression, TypedAbsy.int_free_variable,
        TypedAbsy.int_free_type])

/-- C10: the default IR `fold_statement` returns exactly one output
statement per input statement, preserving a constraint's optional message
and a directive statement's directive shape; the default `fold_directive`
preserves the solver identifier and the input/output counts, folding only
the inputs and outputs. -/
theorem ir_fold_statement_frame :
    (∀ (T S : Type) (f : Ir.Folder T S) (s : S) (st : Ir.Statement T),
      ((Ir.fold_statement f s st).2).length = 1) ∧
    (∀ (T S : Type) (f : Ir.Folder T S) (s : S) (q : Ir.QuadComb T)
      (l : Ir.LinComb T) (m : Option Nat),
      ∃ s' q' l', Ir.fold_statement f s (.Constraint q l m) =
        (s', [.Constraint q' l' m])) ∧
    (∀ (T S : Type) (f : Ir.Folder T S) (s : S) (d : Ir.Directive T),
      ∃ s' d', Ir.fold_statement f s (.Directive d) = (s', [.Directive d'])) ∧
    (∀ (T S : Type) (f : Ir.Folder T S) (s : S) (d : Ir.Directive T),
      ((Ir.fold_directive f s d).2).solver = d.solver ∧
      ((Ir.fold_directive f s d).2).inputs.length = d.inputs.length ∧
      ((Ir.fold_directive f s d).2).outputs.length = d.outputs.length) := by
  refine ⟨?_, ?_, ?_, ?_⟩
  · intro T S f s st
    cases st with
    | Constraint q l m =>
      cases hq : f.fold_quadratic_combination s q with
      | mk s1 q' =>
        cases hl : f.fold_linear_combination s1 l with
        | mk s2 l' => simp [Ir.fold_statement, hq, hl]
    | Directive d =>
      cases hd : f.fold_directive s d with
      | mk s1 d' => simp [Ir.fold_statement, hd]
  · intro T S f s q l m
    cases hq : f.fold_quadratic_combination s q with
    | mk s1 q' =>
      cases hl : f.fold_linear_combination s1 l with
      | mk s2 l' => exact ⟨s2, q', l', by simp [Ir.fold_statement, hq, hl]⟩
  · intro T S f s d
    cases hd : f.fold_directive s d with
    | mk s1 d' => exact ⟨s1, d', by simp [Ir.fold_statement, hd]⟩
  · intro T S f s d
    cases hm1 : mapState f.fold_quadratic_combination s d.inputs with
    | mk s1 ins =>
      cases hm2 : mapState f.fold_variable s1 d.outputs with
      | mk s2 outs =>
        have hl1 := mapState_length f.fold_quadratic_combination s d.inputs
        have hl2 := mapState_length f.fold_variable s1 d.outputs
        rw [hm1] at hl1
        rw [hm2] at hl2
        simp [Ir.fold_directive, hm1, hm2, hl1, hl2]

end ZoKrates
